import Mathlib

/-!
Verification of the ChatMessages conversation store (src/src/store/store.ts).

The store folds a stream of conversation events into per-conversation
aggregates.  We give a shallow embedding: JavaScript `Map`s become
association lists preserving insertion order, JavaScript `Set`s become
duplicate-free lists preserving insertion order, optional payload fields
become `Option String`, and JS truthiness (`!x`, `x || y`) is modelled
explicitly.
-/

namespace ChatMessages

/-- Conversation record, from `utils.types.ts` (`Conversation`).
`assignedUser = none` models the JS `null`. -/
structure Conversation where
  id : String
  assignedUser : Option String
  subject : String
  blurb : String
  messageCount : Nat
  lastUpdatedTimestamp : Nat
  deriving Repr, DecidableEq

/-- Event payload, from `utils.types.ts` (`EventData`).  The optional
fields `user`, `subject`, `body` are `Option String` (`none` = absent). -/
structure EventData where
  timestamp : Nat
  conversationId : String
  user : Option String := none
  subject : Option String := none
  body : Option String := none
  deriving Repr, DecidableEq

/-- A tagged event, from `utils.types.ts` (`ConversationEvent`).  The tag
is an open string: unknown kinds must be tolerated. -/
structure ConversationEvent where
  type : String
  data : EventData
  deriving Repr, DecidableEq

/-- Known event kind strings, from `utils.types.ts` (`EventType`). -/
def EventType.MessageReceived : String := "messageReceived"

def EventType.Assigned : String := "assigned"

def EventType.Unassigned : String := "unassigned"

def EventType.TypingStarted : String := "typingStarted"

def EventType.TypingStopped : String := "typingStopped"

/-- The default (empty) conversation shape, from `utils.types.ts`
(`defaultConversation`), spread with the id at creation. -/
def defaultConversation (id : String) : Conversation :=
  { id := id
    assignedUser := none
    subject := ""
    blurb := ""
    messageCount := 0
    lastUpdatedTimestamp := 0 }

/-! JS `Map` as an insertion-ordered association list. -/

/-- `Map.get`: the value stored at `k`, if any. -/
def mapLookup (m : List (String × α)) (k : String) : Option α :=
  (m.find? (fun p => p.1 == k)).map (fun p => p.2)

/-- `Map.set`: overwrite in place if the key is present, else append. -/
def mapInsert (m : List (String × α)) (k : String) (v : α) : List (String × α) :=
  if (m.find? (fun p => p.1 == k)).isSome then
    m.map (fun p => if p.1 == k then (k, v) else p)
  else m ++ [(k, v)]

/-- `Map.delete`: remove the entry stored at `k`. -/
def mapDelete (m : List (String × α)) (k : String) : List (String × α) :=
  m.filter (fun p => p.1 != k)

/-! JS `Set` of strings as an insertion-ordered duplicate-free list. -/

/-- `Set.add`: append if not already present. -/
def setAdd (s : List String) (x : String) : List String :=
  if s.contains x then s else s ++ [x]

/-- `Set.delete`: remove the element if present. -/
def setDelete (s : List String) (x : String) : List String :=
  s.filter (fun y => y != x)

/-- JS truthiness of an optional string: `undefined` and `""` are falsy. -/
def strTruthy : Option String → Bool
  | none => false
  | some v => v ≠ ""

/-- JS `s.slice(0, n)` on a string, modelled at the character level: the
first `n` characters of `s`. -/
def strTake (s : String) (n : Nat) : String :=
  String.mk (s.data.take n)

/-- JS `x || d` for an optional string `x` and string default `d`. -/
def strOr (x : Option String) (d : String) : String :=
  match x with
  | none => d
  | some v => if v = "" then d else v

/-- The state of the `Store` class: the conversation registry, the
pending-body map (`lastBody`), the dedup guard (`uniqueEvents`) and the
typing tracker (`typingUsers`). -/
structure Store where
  conversations : List (String × Conversation)
  lastBody : List (String × String)
  uniqueEvents : List String
  typingUsers : List (String × List String)
  deriving Repr, DecidableEq

/-- A concrete 300-character message body used to exercise truncation. -/
def longBody : String :=
  String.mk (List.replicate 300 'a')

/-- The configured block-list (`blackListedUsers`). -/
def blackListedUsers : List String := ["John_Doe"]

/-- A freshly constructed store: all four components empty. -/
def Store.empty : Store :=
  { conversations := [], lastBody := [], uniqueEvents := [], typingUsers := [] }

/-- The registry entry for a conversation id, if any. -/
def conversationOf (s : Store) (c : String) : Option Conversation :=
  mapLookup s.conversations c

/-- The typing set for a conversation id, if any. -/
def typingSetOf (s : Store) (c : String) : Option (List String) :=
  mapLookup s.typingUsers c

/-- The stashed pending body for a conversation id, if any. -/
def pendingBodyOf (s : Store) (c : String) : Option String :=
  mapLookup s.lastBody c

/-- The dedup key of an event: `"<conversationId>-<timestamp>"`. -/
def eventKey (e : ConversationEvent) : String :=
  e.data.conversationId ++ "-" ++ toString e.data.timestamp

/-- A conversation whose typing set is absent or empty, as tested by the
message branch of the reducer. -/
def typingEmptyFor (s : Store) (c : String) : Prop :=
  mapLookup s.typingUsers c = none ∨ mapLookup s.typingUsers c = some []

instance (s : Store) (c : String) : Decidable (typingEmptyFor s c) := by
  unfold typingEmptyFor; infer_instance

/-- `getConversations`: filter out conversations whose
`assignedUser || ''` is block-listed, then sort by
`lastUpdatedTimestamp` descending.  A pure read. -/
def getConversations (s : Store) : List Conversation :=
  let conversations := s.conversations.map (fun p => p.2)
  let filteredUsers := conversations.filter
    (fun c => ¬ blackListedUsers.contains (c.assignedUser.getD ""))
  filteredUsers.mergeSort (fun a b => b.lastUpdatedTimestamp ≤ a.lastUpdatedTimestamp)

/-- The typing-indicator phrase over a list of typing users:
one user yields `"<u> is replying..."`, two or more yield
`"<u1>, <u2> are replying..."`, none yields `""`. -/
def typingPhrase (typingUsers : List String) : String :=
  if typingUsers.length = 1 then
    typingUsers.headD "" ++ " is replying..."
  else if typingUsers.length > 1 then
    String.intercalate ", " typingUsers ++ " are replying..."
  else ""

/-- `getBlurbForTypingUsers`: the phrase for the conversation's current
typing set (empty if the conversation has no typing set). -/
def getBlurbForTypingUsers (s : Store) (conversationId : String) : String :=
  typingPhrase ((mapLookup s.typingUsers conversationId).getD [])

/-- `addAndgetBlurbForTypingUsers`: add a truthy `user` to the
conversation's typing set (creating it), then return the phrase.  A
falsy user changes no state. -/
def addAndgetBlurbForTypingUsers (s : Store) (conversationId : String)
    (user : Option String) : Store × String :=
  let typingUser := (mapLookup s.typingUsers conversationId).getD []
  let s' :=
    if strTruthy user then
      { s with
          typingUsers :=
            mapInsert s.typingUsers conversationId (setAdd typingUser (user.getD "")) }
    else s
  (s', getBlurbForTypingUsers s' conversationId)

/-- `deleteBlurbForTypingUsers`: if the conversation has a typing set,
remove a truthy `user` from it; if the set is now empty, drop the entry
and return the stashed pending body (`lastBody.get || ''`), else return
the recomputed phrase.  With no typing set at all, return `""`. -/
def deleteBlurbForTypingUsers (s : Store) (conversationId : String)
    (user : Option String) : Store × String :=
  match mapLookup s.typingUsers conversationId with
  | some found =>
    let found' := if strTruthy user then setDelete found (user.getD "") else found
    let s1 := { s with typingUsers := mapInsert s.typingUsers conversationId found' }
    if found'.length = 0 then
      ({ s1 with typingUsers := mapDelete s1.typingUsers conversationId },
        (mapLookup s.lastBody conversationId).getD "")
    else (s1, typingPhrase found')
  | none => (s, "")

/-- `isConversationEmptyThenRemove`: prune the conversation entry when it
is absent or in the default shape (every field but `id` at its default);
return whether it was empty. -/
def isConversationEmptyThenRemove (s : Store) (conversationId : String) : Store × Bool :=
  match mapLookup s.conversations conversationId with
  | none => (s, true)
  | some conversation =>
    let isEmpty := conversation.assignedUser == none
      && conversation.subject == "" && conversation.blurb == ""
      && conversation.messageCount == 0 && conversation.lastUpdatedTimestamp == 0
    if isEmpty then
      ({ s with conversations := mapDelete s.conversations conversationId }, true)
    else (s, false)

/-- Write a dispatched conversation back into the registry with the
watermark set to the event timestamp (the post-switch
`conversation.lastUpdatedTimestamp = timestamp`). -/
def finishKnown (s : Store) (conversationId : String) (timestamp : Nat)
    (conversation : Conversation) : Store :=
  { s with
      conversations :=
        mapInsert s.conversations conversationId
          ({ conversation with lastUpdatedTimestamp := timestamp }) }

/-- The stale-event guard of `handleEvent`: a registry entry exists whose
id matches and whose watermark is strictly greater than the incoming
timestamp. -/
def staleFor (s : Store) (event : ConversationEvent) : Bool :=
  match mapLookup s.conversations event.data.conversationId with
  | some c =>
    c.id == event.data.conversationId
      && decide (c.lastUpdatedTimestamp > event.data.timestamp)
  | none => false

/-- Record the dedup key and lazily create the conversation in default
shape, as `handleEvent` does just before dispatch. -/
def acceptedStore (s : Store) (event : ConversationEvent) : Store :=
  let s1 := { s with uniqueEvents := setAdd s.uniqueEvents (eventKey event) }
  if (mapLookup s.conversations event.data.conversationId).isNone then
    { s1 with
        conversations :=
          mapInsert s1.conversations event.data.conversationId
            (defaultConversation event.data.conversationId) }
  else s1

/-- The `switch (type)` dispatch of `handleEvent`, applied after
validation, ordering, dedup and lazy creation. `s2` already records the
dedup key and holds `conversation` in the registry. -/
def dispatchEvent (s2 : Store) (event : ConversationEvent)
    (conversation : Conversation) : Store :=
  let timestamp := event.data.timestamp
  let conversationId := event.data.conversationId
  let user := event.data.user
  let subject := event.data.subject
  let body := event.data.body
  if event.type = EventType.MessageReceived then
    let conv1 := { conversation with
      subject := strOr subject conversation.subject
      messageCount := conversation.messageCount + 1 }
    let typingEmpty :=
      match mapLookup s2.typingUsers conversationId with
      | none => true
      | some l => l.length = 0
    if typingEmpty then
      let conv2 := { conv1 with
        blurb := strOr (body.map (fun b => strTake b 256)) conv1.blurb }
      finishKnown s2 conversationId timestamp conv2
    else
      finishKnown
        ({ s2 with lastBody := mapInsert s2.lastBody conversationId (body.getD "") })
        conversationId timestamp conv1
  else if event.type = EventType.Assigned then
    let assigned := match user with
      | some u => if u = "" then none else some u
      | none => none
    finishKnown s2 conversationId timestamp { conversation with assignedUser := assigned }
  else if event.type = EventType.Unassigned then
    finishKnown s2 conversationId timestamp { conversation with assignedUser := none }
  else if event.type = EventType.TypingStarted then
    let res := addAndgetBlurbForTypingUsers s2 conversationId user
    finishKnown res.1 conversationId timestamp { conversation with blurb := res.2 }
  else if event.type = EventType.TypingStopped then
    let res := deleteBlurbForTypingUsers s2 conversationId user
    finishKnown res.1 conversationId timestamp { conversation with blurb := res.2 }
  else
    let s3 := { s2 with uniqueEvents := setDelete s2.uniqueEvents (eventKey event) }
    (isConversationEmptyThenRemove s3 conversationId).1

/-- `handleEvent`: validate, discard stale events (watermark strictly
greater than the incoming timestamp), deduplicate on
`"<conversationId>-<timestamp>"`, lazily create the conversation, then
dispatch on the event kind. -/
def handleEvent (s : Store) (event : ConversationEvent) : Store :=
  if event.data.timestamp = 0 then s
  else if event.data.conversationId = "" then s
  else if staleFor s event then s
  else if s.uniqueEvents.contains (eventKey event) then s
  else
    let s2 := acceptedStore s event
    let conversation :=
      (mapLookup s2.conversations event.data.conversationId).getD
        (defaultConversation event.data.conversationId)
    dispatchEvent s2 event conversation

/-- Fold a list of events through the store, oldest call first. -/
def handleEvents (s : Store) (events : List ConversationEvent) : Store :=
  events.foldl handleEvent s

/-- Reachable store states: the fresh store and anything obtained from a
reachable state by handling one event. -/
inductive Reachable : Store → Prop
  | empty : Reachable Store.empty
  | step {s : Store} (e : ConversationEvent) : Reachable s → Reachable (handleEvent s e)


/-- Id-consistency: every registry entry's `id` field equals its key. -/
def IdConsistent (s : Store) : Prop :=
  ∀ c conv, mapLookup s.conversations c = some conv → conv.id = c

/-- The blurb bound invariant: every stored blurb is at most 256
characters, or is the conversation's current typing-indicator phrase, or
(with an empty typing set) is the stashed pending body restored when
typing last ended. -/
def BlurbInvariant (s : Store) : Prop :=
  ∀ c conv, mapLookup s.conversations c = some conv →
    conv.blurb.length ≤ 256
    ∨ conv.blurb = typingPhrase ((mapLookup s.typingUsers c).getD [])
    ∨ ((mapLookup s.typingUsers c = none ∨ mapLookup s.typingUsers c = some [])
        ∧ conv.blurb = (mapLookup s.lastBody c).getD "")

/-! Lemmas about the JS `Map` and `Set` embeddings. -/

theorem find?_map_replace (m : List (String × α)) (k : String) (v : α) :
    (m.map (fun p => if p.1 == k then (k, v) else p)).find? (fun p => p.1 == k)
      = (m.find? (fun p => p.1 == k)).map (fun _ => (k, v)) := by
  induction m with
  | nil => rfl
  | cons p m ih =>
    by_cases hp : p.1 = k
    · simp [hp]
    · simp only [List.map_cons]
      rw [List.find?_cons_of_neg, List.find?_cons_of_neg, ih] <;> simp [hp]

theorem mapLookup_mapInsert_self (m : List (String × α)) (k : String) (v : α) :
    mapLookup (mapInsert m k v) k = some v := by
  unfold mapLookup mapInsert
  by_cases h : (m.find? (fun p => p.1 == k)).isSome
  · rw [if_pos h, find?_map_replace]
    cases hf : m.find? (fun p => p.1 == k) with
    | none => rw [hf] at h; simp at h
    | some p => simp
  · rw [if_neg h, List.find?_append]
    cases hf : m.find? (fun p => p.1 == k) with
    | none => simp
    | some p => rw [hf] at h; simp at h

theorem find?_map_replace_ne (m : List (String × α)) (k k' : String) (v : α)
    (h : k' ≠ k) :
    (m.map (fun p => if p.1 == k then (k, v) else p)).find? (fun p => p.1 == k')
      = m.find? (fun p => p.1 == k') := by
  have hkk' : (k == k') = false := beq_eq_false_iff_ne.2 (Ne.symm h)
  induction m with
  | nil => rfl
  | cons p m ih =>
    by_cases hp : p.1 = k
    · have hpk' : (p.1 == k') = false := beq_eq_false_iff_ne.2 (by rw [hp]; exact Ne.symm h)
      simp only [List.map_cons, if_pos (beq_iff_eq.2 hp), List.find?_cons, hkk', hpk', ih]
    · have hrep : (if (p.1 == k) then ((k, v) : String × α) else p) = p :=
        if_neg (by simpa using hp)
      simp only [List.map_cons, hrep, List.find?_cons, ih]

theorem mapLookup_mapInsert_ne (m : List (String × α)) (k k' : String) (v : α)
    (h : k' ≠ k) : mapLookup (mapInsert m k v) k' = mapLookup m k' := by
  unfold mapLookup mapInsert
  by_cases hs : (m.find? (fun p => p.1 == k)).isSome
  · rw [if_pos hs, find?_map_replace_ne m k k' v h]
  · rw [if_neg hs, List.find?_append]
    cases hf : (m.find? (fun p => p.1 == k')) with
    | none => simp [hf, Ne.symm h]
    | some p => simp [hf]

theorem mapLookup_mapDelete_self (m : List (String × α)) (k : String) :
    mapLookup (mapDelete m k) k = none := by
  unfold mapLookup mapDelete
  rw [Option.map_eq_none', List.find?_eq_none]
  intro p hp
  have := List.of_mem_filter hp
  simpa using this

theorem mapLookup_mapDelete_ne (m : List (String × α)) (k k' : String) (h : k' ≠ k) :
    mapLookup (mapDelete m k) k' = mapLookup m k' := by
  unfold mapLookup mapDelete
  rw [List.find?_filter]
  have hpred : (fun a : String × α => decide ((a.1 != k) = true ∧ (a.1 == k') = true))
      = (fun a : String × α => a.1 == k') := by
    funext a
    by_cases ha : a.1 = k'
    · have hak : (a.1 != k) = true := by
        simp only [bne_iff_ne, ne_eq]
        rw [ha]; exact h
      simp [ha, hak, h]
    · simp [ha]
  rw [hpred]

theorem mapDelete_eq_self_of_lookup_none (m : List (String × α)) (k : String)
    (h : mapLookup m k = none) : mapDelete m k = m := by
  unfold mapLookup at h
  rw [Option.map_eq_none', List.find?_eq_none] at h
  unfold mapDelete
  apply List.filter_eq_self.2
  intro p hp
  simpa using h p hp

theorem mapDelete_mapInsert_cancel (m : List (String × α)) (k : String) (v : α)
    (h : mapLookup m k = none) : mapDelete (mapInsert m k v) k = m := by
  have hf : ¬ (m.find? (fun p => p.1 == k)).isSome = true := by
    unfold mapLookup at h
    rw [Option.map_eq_none'] at h
    simp [h]
  unfold mapInsert
  rw [if_neg hf]
  unfold mapDelete
  rw [List.filter_append]
  have h1 : List.filter (fun p : String × α => p.1 != k) m = m :=
    List.filter_eq_self.2 (by
      unfold mapLookup at h
      rw [Option.map_eq_none', List.find?_eq_none] at h
      intro p hp; simpa using h p hp)
  have h2 : List.filter (fun p : String × α => p.1 != k) [(k, v)] = [] := by simp
  rw [h1, h2, List.append_nil]

/-! Lemmas about the JS `Set` embedding. -/

theorem contains_setAdd_self (s : List String) (x : String) :
    (setAdd s x).contains x = true := by
  unfold setAdd
  by_cases h : s.contains x
  · rw [if_pos h]; exact h
  · rw [if_neg h]; simp

theorem setDelete_eq_self_of_not_contains (s : List String) (x : String)
    (h : s.contains x = false) : setDelete s x = s := by
  have hx : x ∉ s := by simpa using h
  unfold setDelete
  apply List.filter_eq_self.2
  intro y hy
  simp only [bne_iff_ne, ne_eq, decide_eq_true_eq]
  intro he
  exact hx (he ▸ hy)

theorem setDelete_setAdd_cancel (s : List String) (x : String)
    (h : s.contains x = false) : setDelete (setAdd s x) x = s := by
  unfold setAdd
  rw [if_neg (by rw [h]; simp)]
  unfold setDelete
  rw [List.filter_append]
  have h1 : List.filter (fun y => y != x) s = s := setDelete_eq_self_of_not_contains s x h
  have h2 : List.filter (fun y => y != x) [x] = [] := by simp
  rw [h1, h2, List.append_nil]

/-! Path lemmas for `handleEvent`: the four discard paths and the
accepted path. -/

theorem handleEvent_ts_zero (s : Store) (e : ConversationEvent)
    (h : e.data.timestamp = 0) : handleEvent s e = s := by
  unfold handleEvent
  rw [if_pos h]

theorem handleEvent_cid_empty (s : Store) (e : ConversationEvent)
    (h : e.data.conversationId = "") : handleEvent s e = s := by
  unfold handleEvent
  by_cases h1 : e.data.timestamp = 0
  · rw [if_pos h1]
  · rw [if_neg h1, if_pos h]

theorem handleEvent_stale (s : Store) (e : ConversationEvent)
    (h : staleFor s e = true) : handleEvent s e = s := by
  unfold handleEvent
  split_ifs <;> rfl

theorem handleEvent_dup (s : Store) (e : ConversationEvent)
    (h : s.uniqueEvents.contains (eventKey e) = true) : handleEvent s e = s := by
  unfold handleEvent
  split_ifs <;> rfl

theorem handleEvent_accepted (s : Store) (e : ConversationEvent)
    (h1 : e.data.timestamp ≠ 0) (h2 : e.data.conversationId ≠ "")
    (h3 : staleFor s e = false)
    (h4 : s.uniqueEvents.contains (eventKey e) = false) :
    handleEvent s e
      = dispatchEvent (acceptedStore s e) e
          ((mapLookup (acceptedStore s e).conversations e.data.conversationId).getD
            (defaultConversation e.data.conversationId)) := by
  unfold handleEvent
  rw [if_neg h1, if_neg h2, if_neg (by simp [h3]), if_neg (by rw [h4]; simp)]

/-! Lemmas about `acceptedStore`. -/

theorem acceptedStore_lastBody (s : Store) (e : ConversationEvent) :
    (acceptedStore s e).lastBody = s.lastBody := by
  unfold acceptedStore
  split_ifs <;> rfl

theorem acceptedStore_typingUsers (s : Store) (e : ConversationEvent) :
    (acceptedStore s e).typingUsers = s.typingUsers := by
  unfold acceptedStore
  split_ifs <;> rfl

theorem acceptedStore_uniqueEvents (s : Store) (e : ConversationEvent) :
    (acceptedStore s e).uniqueEvents = setAdd s.uniqueEvents (eventKey e) := by
  unfold acceptedStore
  split_ifs <;> rfl

theorem acceptedStore_lookup_self (s : Store) (e : ConversationEvent) :
    mapLookup (acceptedStore s e).conversations e.data.conversationId
      = some ((mapLookup s.conversations e.data.conversationId).getD
          (defaultConversation e.data.conversationId)) := by
  unfold acceptedStore
  cases hl : mapLookup s.conversations e.data.conversationId with
  | none =>
    rw [if_pos (by simp [hl])]
    simpa using mapLookup_mapInsert_self s.conversations e.data.conversationId
      (defaultConversation e.data.conversationId)
  | some c =>
    rw [if_neg (by simp [hl])]
    simpa using hl

theorem acceptedStore_lookup_ne (s : Store) (e : ConversationEvent) (c' : String)
    (h : c' ≠ e.data.conversationId) :
    mapLookup (acceptedStore s e).conversations c' = mapLookup s.conversations c' := by
  unfold acceptedStore
  split_ifs with hn
  · simpa using mapLookup_mapInsert_ne s.conversations e.data.conversationId c'
      (defaultConversation e.data.conversationId) h
  · rfl

theorem staleFor_false_le (s : Store) (e : ConversationEvent) (c : Conversation)
    (hl : mapLookup s.conversations e.data.conversationId = some c)
    (hid : c.id = e.data.conversationId)
    (h : staleFor s e = false) : c.lastUpdatedTimestamp ≤ e.data.timestamp := by
  unfold staleFor at h
  rw [hl] at h
  simp only [hid, beq_self_eq_true, Bool.true_and, decide_eq_false_iff_not, not_lt] at h
  exact h

/-! Lemmas about `finishKnown`. -/

theorem finishKnown_lookup_self (s : Store) (c : String) (ts : Nat) (conv : Conversation) :
    mapLookup (finishKnown s c ts conv).conversations c
      = some ({ conv with lastUpdatedTimestamp := ts }) := by
  unfold finishKnown
  simpa using mapLookup_mapInsert_self s.conversations c
    ({ conv with lastUpdatedTimestamp := ts })

theorem finishKnown_lookup_ne (s : Store) (c c' : String) (ts : Nat) (conv : Conversation)
    (h : c' ≠ c) :
    mapLookup (finishKnown s c ts conv).conversations c' = mapLookup s.conversations c' := by
  unfold finishKnown
  simpa using mapLookup_mapInsert_ne s.conversations c c'
    ({ conv with lastUpdatedTimestamp := ts }) h

theorem finishKnown_lastBody (s : Store) (c : String) (ts : Nat) (conv : Conversation) :
    (finishKnown s c ts conv).lastBody = s.lastBody := rfl

theorem finishKnown_typingUsers (s : Store) (c : String) (ts : Nat) (conv : Conversation) :
    (finishKnown s c ts conv).typingUsers = s.typingUsers := rfl

theorem finishKnown_uniqueEvents (s : Store) (c : String) (ts : Nat) (conv : Conversation) :
    (finishKnown s c ts conv).uniqueEvents = s.uniqueEvents := rfl

/-- Unfolding of the `Assigned` arm of the dispatch. -/
theorem dispatchEvent_assigned (s2 : Store) (e : ConversationEvent) (conv : Conversation)
    (hty : e.type = EventType.Assigned) :
    dispatchEvent s2 e conv
      = finishKnown s2 e.data.conversationId e.data.timestamp
          ({ conv with
              assignedUser := match e.data.user with
                | some u => if u = "" then none else some u
                | none => none }) := by
  unfold dispatchEvent
  rw [if_neg (by rw [hty]; decide), if_pos hty]

/-- Unfolding of the `MessageReceived` arm when no users are typing. -/
theorem dispatchEvent_message_typingEmpty (s2 : Store) (e : ConversationEvent)
    (conv : Conversation) (hty : e.type = EventType.MessageReceived)
    (htyping : typingEmptyFor s2 e.data.conversationId) :
    dispatchEvent s2 e conv
      = finishKnown s2 e.data.conversationId e.data.timestamp
          ({ conv with
              subject := strOr e.data.subject conv.subject,
              messageCount := conv.messageCount + 1,
              blurb := strOr (e.data.body.map (fun b => strTake b 256)) conv.blurb }) := by
  unfold dispatchEvent
  rw [if_pos hty]
  rcases htyping with h | h <;> rw [h] <;> rfl

/-- Unfolding of the `MessageReceived` arm while users are typing: the
body is stashed as the pending body and the blurb is untouched. -/
theorem dispatchEvent_message_typingBusy (s2 : Store) (e : ConversationEvent)
    (conv : Conversation) (l : List String) (hty : e.type = EventType.MessageReceived)
    (htyping : mapLookup s2.typingUsers e.data.conversationId = some l) (hl : l ≠ []) :
    dispatchEvent s2 e conv
      = finishKnown
          ({ s2 with
              lastBody :=
                mapInsert s2.lastBody e.data.conversationId (e.data.body.getD "") })
          e.data.conversationId e.data.timestamp
          ({ conv with
              subject := strOr e.data.subject conv.subject,
              messageCount := conv.messageCount + 1 }) := by
  unfold dispatchEvent
  rw [if_pos hty, htyping]
  have hlen : (decide (l.length = 0)) = false := by
    simp [List.length_eq_zero, hl]
  simp only [hlen]
  rfl

/-- `typingEmptyFor` is unaffected by `acceptedStore`. -/
theorem typingEmptyFor_acceptedStore (s : Store) (e : ConversationEvent) (c : String)
    (h : typingEmptyFor s c) : typingEmptyFor (acceptedStore s e) c := by
  unfold typingEmptyFor at h ⊢
  rw [show (acceptedStore s e).typingUsers = s.typingUsers from acceptedStore_typingUsers s e]
  exact h

/-- Everything `getConversations` returns is literally one of the stored
registry values (the read path copies, filters and sorts; it rewrites no
field). -/
theorem getConversations_sub (s : Store) (v : Conversation)
    (hv : v ∈ getConversations s) : v ∈ s.conversations.map (fun p => p.2) := by
  unfold getConversations at hv
  simp only [List.mem_mergeSort] at hv
  exact List.mem_of_mem_filter hv

/-- A string of length at least 256 keeps a non-empty first-256-character
prefix. -/
theorem strTake_256_ne_empty (b : String) (h : 256 ≤ b.length) :
    strTake b 256 ≠ "" := by
  intro hc
  have hdata : b.data.take 256 = [] := congrArg String.data hc
  rcases List.take_eq_nil_iff.1 hdata with h0 | h0
  · exact absurd h0 (by omega)
  · have : b.length = 0 := by
      show b.data.length = 0
      rw [h0]; rfl
    omega

/-! ## Claim C8 -/

/-- Claim C8: an accepted `MessageReceived` event whose body has at least
256 characters, arriving while nobody is typing, sets the blurb to
exactly the first 256 characters of the body, and `getConversations`
returns stored registry values unchanged (no re-truncation on read). -/
theorem C8_truncation (s : Store) (e : ConversationEvent) (b : String)
    (h1 : e.data.timestamp ≠ 0) (h2 : e.data.conversationId ≠ "")
    (h3 : staleFor s e = false)
    (h4 : s.uniqueEvents.contains (eventKey e) = false)
    (hty : e.type = EventType.MessageReceived)
    (hbody : e.data.body = some b) (hlen : 256 ≤ b.length)
    (htyping : typingEmptyFor s e.data.conversationId) :
    (conversationOf (handleEvent s e) e.data.conversationId).map (fun c => c.blurb)
      = some (strTake b 256)
    ∧ ∀ v ∈ getConversations (handleEvent s e),
        v ∈ (handleEvent s e).conversations.map (fun p => p.2) := by
  constructor
  · rw [handleEvent_accepted s e h1 h2 h3 h4,
      dispatchEvent_message_typingEmpty _ e _ hty
        (typingEmptyFor_acceptedStore s e _ htyping)]
    unfold conversationOf
    rw [finishKnown_lookup_self]
    rw [hbody]
    simp [strOr, strTake_256_ne_empty b hlen]
  · intro v hv
    exact getConversations_sub _ v hv

set_option maxRecDepth 100000 in
/-- Witness for C8: a 300-character body on a fresh conversation yields a
blurb of exactly its first 256 characters. -/
theorem C8_truncation_witness :
    (conversationOf
      (handleEvent Store.empty
        { type := "messageReceived",
          data := { timestamp := 1, conversationId := "c1", body := some longBody } })
      "c1").map (fun c => c.blurb) = some (strTake longBody 256) := by
  have h := C8_truncation Store.empty
    { type := "messageReceived",
      data := { timestamp := 1, conversationId := "c1", body := some longBody } }
    longBody (by decide) (by decide) rfl rfl rfl rfl
    (by show 256 ≤ (List.replicate 300 'a').length; rw [List.length_replicate]; omega)
    (Or.inl rfl)
  exact h.1

/-- Replacing the value stored at a key commutes away under a filter that
drops that key. -/
theorem filter_ne_map_replace (m : List (String × α)) (k : String) (v : α) :
    List.filter (fun p => p.1 != k)
        (m.map (fun p => if p.1 == k then (k, v) else p))
      = List.filter (fun p => p.1 != k) m := by
  induction m with
  | nil => rfl
  | cons p m ih =>
    by_cases hp : p.1 = k
    · simp only [List.map_cons, if_pos (beq_iff_eq.2 hp)]
      rw [List.filter_cons_of_neg (by simp),
        List.filter_cons_of_neg (by simp [hp])]
      exact ih
    · have hrep : (if (p.1 == k) then ((k, v) : String × α) else p) = p :=
        if_neg (by simpa using hp)
      simp only [List.map_cons, hrep]
      rw [List.filter_cons_of_pos (by simp [hp]),
        List.filter_cons_of_pos (by simp [hp])]
      rw [ih]

/-- Inserting and then deleting a key deletes exactly that key. -/
theorem mapDelete_mapInsert (m : List (String × α)) (k : String) (v : α) :
    mapDelete (mapInsert m k v) k = mapDelete m k := by
  unfold mapInsert
  split_ifs with h
  · exact filter_ne_map_replace m k v
  · unfold mapDelete
    rw [List.filter_append]
    have h2 : List.filter (fun p : String × α => p.1 != k) [(k, v)] = [] := by simp
    rw [h2, List.append_nil]

/-- `deleteBlurbForTypingUsers` when the conversation has no typing set. -/
theorem deleteBlurb_noSet (s : Store) (c : String) (u : Option String)
    (h : mapLookup s.typingUsers c = none) :
    deleteBlurbForTypingUsers s c u = (s, "") := by
  unfold deleteBlurbForTypingUsers
  rw [h]

/-- `deleteBlurbForTypingUsers` when the removal empties the typing set:
the entry is dropped and the stashed pending body (or `""`) returned. -/
theorem deleteBlurb_toEmpty (s : Store) (c : String) (u : Option String) (l : List String)
    (hl : mapLookup s.typingUsers c = some l)
    (hres : (if strTruthy u then setDelete l (u.getD "") else l) = []) :
    deleteBlurbForTypingUsers s c u
      = ({ s with typingUsers := mapDelete s.typingUsers c },
         (mapLookup s.lastBody c).getD "") := by
  unfold deleteBlurbForTypingUsers
  rw [hl]
  simp only [hres]
  rw [if_pos (show (([] : List String)).length = 0 from rfl)]
  rw [mapDelete_mapInsert s.typingUsers c ([] : List String)]

/-- `deleteBlurbForTypingUsers` when users remain typing afterwards: the
set is updated in place and the recomputed phrase returned. -/
theorem deleteBlurb_nonEmpty (s : Store) (c : String) (u : Option String) (l : List String)
    (hl : mapLookup s.typingUsers c = some l)
    (hres : (if strTruthy u then setDelete l (u.getD "") else l) ≠ []) :
    deleteBlurbForTypingUsers s c u
      = ({ s with
            typingUsers :=
              mapInsert s.typingUsers c
                (if strTruthy u then setDelete l (u.getD "") else l) },
         typingPhrase (if strTruthy u then setDelete l (u.getD "") else l)) := by
  unfold deleteBlurbForTypingUsers
  rw [hl]
  simp only [List.length_eq_zero]
  rw [if_neg hres]

/-- Unfolding of the `TypingStopped` arm of the dispatch. -/
theorem dispatchEvent_typingStopped (s2 : Store) (e : ConversationEvent)
    (conv : Conversation) (hty : e.type = EventType.TypingStopped) :
    dispatchEvent s2 e conv
      = finishKnown (deleteBlurbForTypingUsers s2 e.data.conversationId e.data.user).1
          e.data.conversationId e.data.timestamp
          ({ conv with
              blurb := (deleteBlurbForTypingUsers s2 e.data.conversationId e.data.user).2 }) := by
  unfold dispatchEvent
  rw [if_neg (by rw [hty]; decide), if_neg (by rw [hty]; decide),
    if_neg (by rw [hty]; decide), if_neg (by rw [hty]; decide), if_pos hty]

/-- Unfolding of the `TypingStarted` arm of the dispatch. -/
theorem dispatchEvent_typingStarted (s2 : Store) (e : ConversationEvent)
    (conv : Conversation) (hty : e.type = EventType.TypingStarted) :
    dispatchEvent s2 e conv
      = finishKnown (addAndgetBlurbForTypingUsers s2 e.data.conversationId e.data.user).1
          e.data.conversationId e.data.timestamp
          ({ conv with
              blurb := (addAndgetBlurbForTypingUsers s2 e.data.conversationId e.data.user).2 }) := by
  unfold dispatchEvent
  rw [if_neg (by rw [hty]; decide), if_neg (by rw [hty]; decide),
    if_neg (by rw [hty]; decide), if_pos hty]

/-- Unfolding of the `Unassigned` arm of the dispatch. -/
theorem dispatchEvent_unassigned (s2 : Store) (e : ConversationEvent)
    (conv : Conversation) (hty : e.type = EventType.Unassigned) :
    dispatchEvent s2 e conv
      = finishKnown s2 e.data.conversationId e.data.timestamp
          ({ conv with assignedUser := none }) := by
  unfold dispatchEvent
  rw [if_neg (by rw [hty]; decide), if_neg (by rw [hty]; decide), if_pos hty]

/-- Component characterisation of an accepted `MessageReceived` event
arriving while users are typing: the registry entry gains a message
count and possibly a subject but keeps its blurb; the typing sets are
untouched; the body is stashed as the pending body; the dedup key is
recorded. -/
theorem handleEvent_message_busy_components (s : Store) (e : ConversationEvent)
    (conv : Conversation) (l : List String)
    (h1 : e.data.timestamp ≠ 0) (h2 : e.data.conversationId ≠ "")
    (h3 : staleFor s e = false)
    (h4 : s.uniqueEvents.contains (eventKey e) = false)
    (hty : e.type = EventType.MessageReceived)
    (hconv : conversationOf s e.data.conversationId = some conv)
    (hl : mapLookup s.typingUsers e.data.conversationId = some l) (hlne : l ≠ []) :
    conversationOf (handleEvent s e) e.data.conversationId
      = some ({ conv with
          subject := strOr e.data.subject conv.subject,
          messageCount := conv.messageCount + 1,
          lastUpdatedTimestamp := e.data.timestamp })
    ∧ (handleEvent s e).typingUsers = s.typingUsers
    ∧ (handleEvent s e).lastBody
        = mapInsert s.lastBody e.data.conversationId (e.data.body.getD "")
    ∧ (handleEvent s e).uniqueEvents = setAdd s.uniqueEvents (eventKey e) := by
  have hl2 : mapLookup (acceptedStore s e).typingUsers e.data.conversationId = some l := by
    rw [acceptedStore_typingUsers]
    exact hl
  have hgetd :
      (mapLookup (acceptedStore s e).conversations e.data.conversationId).getD
        (defaultConversation e.data.conversationId) = conv := by
    rw [acceptedStore_lookup_self]
    unfold conversationOf at hconv
    rw [hconv]
    rfl
  rw [handleEvent_accepted s e h1 h2 h3 h4,
    dispatchEvent_message_typingBusy _ e _ l hty hl2 hlne, hgetd]
  refine ⟨?_, ?_, ?_, ?_⟩
  · unfold conversationOf
    rw [finishKnown_lookup_self]
  · rw [show ∀ st : Store, (finishKnown st e.data.conversationId e.data.timestamp
        ({ conv with
            subject := strOr e.data.subject conv.subject,
            messageCount := conv.messageCount + 1 })).typingUsers = st.typingUsers
      from fun st => rfl]
    exact acceptedStore_typingUsers s e
  · rw [show ∀ st : Store, (finishKnown st e.data.conversationId e.data.timestamp
        ({ conv with
            subject := strOr e.data.subject conv.subject,
            messageCount := conv.messageCount + 1 })).lastBody = st.lastBody
      from fun st => rfl]
    rw [show ({ acceptedStore s e with
        lastBody := mapInsert (acceptedStore s e).lastBody e.data.conversationId
          (e.data.body.getD "") } : Store).lastBody
      = mapInsert (acceptedStore s e).lastBody e.data.conversationId (e.data.body.getD "")
      from rfl]
    rw [acceptedStore_lastBody]
  · rw [show ∀ st : Store, (finishKnown st e.data.conversationId e.data.timestamp
        ({ conv with
            subject := strOr e.data.subject conv.subject,
            messageCount := conv.messageCount + 1 })).uniqueEvents = st.uniqueEvents
      from fun st => rfl]
    rw [show ({ acceptedStore s e with
        lastBody := mapInsert (acceptedStore s e).lastBody e.data.conversationId
          (e.data.body.getD "") } : Store).uniqueEvents
      = (acceptedStore s e).uniqueEvents from rfl]
    exact acceptedStore_uniqueEvents s e

/-- An unknown-kind event for a fresh conversation id rolls everything
back: the store is unchanged. -/
theorem handleEvent_unknown_fresh (s : Store) (e : ConversationEvent)
    (h1 : e.data.timestamp ≠ 0) (h2 : e.data.conversationId ≠ "")
    (hconv : mapLookup s.conversations e.data.conversationId = none)
    (hdup : s.uniqueEvents.contains (eventKey e) = false)
    (hm : e.type ≠ EventType.MessageReceived) (ha : e.type ≠ EventType.Assigned)
    (hu : e.type ≠ EventType.Unassigned) (hst : e.type ≠ EventType.TypingStarted)
    (hsp : e.type ≠ EventType.TypingStopped) :
    handleEvent s e = s := by
  have h3 : staleFor s e = false := by
    unfold staleFor
    rw [hconv]
  rw [handleEvent_accepted s e h1 h2 h3 hdup]
  unfold dispatchEvent
  rw [if_neg hm, if_neg ha, if_neg hu, if_neg hst, if_neg hsp]
  have hacc : acceptedStore s e
      = { s with
          uniqueEvents := setAdd s.uniqueEvents (eventKey e),
          conversations :=
            mapInsert s.conversations e.data.conversationId
              (defaultConversation e.data.conversationId) } := by
    unfold acceptedStore
    rw [if_pos (by simp [hconv])]
  rw [hacc]
  show (isConversationEmptyThenRemove
    (Store.mk
      (mapInsert s.conversations e.data.conversationId
        (defaultConversation e.data.conversationId))
      s.lastBody
      (setDelete (setAdd s.uniqueEvents (eventKey e)) (eventKey e))
      s.typingUsers)
    e.data.conversationId).1 = s
  rw [setDelete_setAdd_cancel s.uniqueEvents (eventKey e) hdup]
  unfold isConversationEmptyThenRemove
  rw [mapLookup_mapInsert_self]
  show Store.mk
      (mapDelete
        (mapInsert s.conversations e.data.conversationId
          (defaultConversation e.data.conversationId))
        e.data.conversationId)
      s.lastBody s.uniqueEvents s.typingUsers = s
  rw [mapDelete_mapInsert_cancel s.conversations e.data.conversationId
    (defaultConversation e.data.conversationId) hconv]

/-- An unknown-kind event for an existing conversation reduces to the
prune step applied to the original store. -/
theorem handleEvent_unknown_existing (s : Store) (e : ConversationEvent)
    (conv0 : Conversation)
    (h1 : e.data.timestamp ≠ 0) (h2 : e.data.conversationId ≠ "")
    (h3 : staleFor s e = false)
    (hconv : mapLookup s.conversations e.data.conversationId = some conv0)
    (hdup : s.uniqueEvents.contains (eventKey e) = false)
    (hm : e.type ≠ EventType.MessageReceived) (ha : e.type ≠ EventType.Assigned)
    (hu : e.type ≠ EventType.Unassigned) (hst : e.type ≠ EventType.TypingStarted)
    (hsp : e.type ≠ EventType.TypingStopped) :
    handleEvent s e = (isConversationEmptyThenRemove s e.data.conversationId).1 := by
  rw [handleEvent_accepted s e h1 h2 h3 hdup]
  unfold dispatchEvent
  rw [if_neg hm, if_neg ha, if_neg hu, if_neg hst, if_neg hsp]
  have hacc : acceptedStore s e
      = { s with uniqueEvents := setAdd s.uniqueEvents (eventKey e) } := by
    unfold acceptedStore
    rw [if_neg (by simp [hconv])]
  rw [hacc]
  show (isConversationEmptyThenRemove
    (Store.mk s.conversations s.lastBody
      (setDelete (setAdd s.uniqueEvents (eventKey e)) (eventKey e))
      s.typingUsers)
    e.data.conversationId).1 = (isConversationEmptyThenRemove s e.data.conversationId).1
  rw [setDelete_setAdd_cancel s.uniqueEvents (eventKey e) hdup]

/-- All five known arms of the dispatch leave the dedup guard as it was
handed to them. -/
theorem dispatchEvent_uniqueEvents_known (s2 : Store) (e : ConversationEvent)
    (conv : Conversation)
    (h : e.type = EventType.MessageReceived ∨ e.type = EventType.Assigned
      ∨ e.type = EventType.Unassigned ∨ e.type = EventType.TypingStarted
      ∨ e.type = EventType.TypingStopped) :
    (dispatchEvent s2 e conv).uniqueEvents = s2.uniqueEvents := by
  unfold dispatchEvent
  rcases h with h | h | h | h | h
  · rw [if_pos h]
    rcases hx : mapLookup s2.typingUsers e.data.conversationId with _ | l
    · rfl
    · simp only [hx]
      split_ifs <;> rfl
  · rw [if_neg (by rw [h]; decide), if_pos h]
    rfl
  · rw [if_neg (by rw [h]; decide), if_neg (by rw [h]; decide), if_pos h]
    rfl
  · rw [if_neg (by rw [h]; decide), if_neg (by rw [h]; decide),
      if_neg (by rw [h]; decide), if_pos h]
    unfold addAndgetBlurbForTypingUsers
    cases hc : strTruthy e.data.user <;> rfl
  · rw [if_neg (by rw [h]; decide), if_neg (by rw [h]; decide),
      if_neg (by rw [h]; decide), if_neg (by rw [h]; decide), if_pos h]
    unfold deleteBlurbForTypingUsers
    rcases hx : mapLookup s2.typingUsers e.data.conversationId with _ | l
    · rfl
    · simp only [hx]
      split_ifs <;> rfl

/-- After a known-kind dispatch, the entry at the event's conversation id
keeps the dispatched conversation's id and carries the event timestamp
as its new watermark. -/
theorem dispatch_known_lookup_self (s2 : Store) (e : ConversationEvent)
    (conv : Conversation)
    (h : e.type = EventType.MessageReceived ∨ e.type = EventType.Assigned
      ∨ e.type = EventType.Unassigned ∨ e.type = EventType.TypingStarted
      ∨ e.type = EventType.TypingStopped) :
    (mapLookup (dispatchEvent s2 e conv).conversations e.data.conversationId).map
      (fun v => (v.id, v.lastUpdatedTimestamp)) = some (conv.id, e.data.timestamp) := by
  have hgen : ∀ (st : Store) (cv : Conversation),
      (mapLookup (finishKnown st e.data.conversationId e.data.timestamp cv).conversations
        e.data.conversationId).map (fun v => (v.id, v.lastUpdatedTimestamp))
      = some (cv.id, e.data.timestamp) := by
    intro st cv
    rw [finishKnown_lookup_self]
    rfl
  unfold dispatchEvent
  rcases h with h | h | h | h | h
  · rw [if_pos h]
    rcases hx : mapLookup s2.typingUsers e.data.conversationId with _ | l
    · exact hgen _ _
    · simp only [hx]
      split_ifs
      · exact hgen _ _
      · exact hgen _ _
  · rw [if_neg (by rw [h]; decide), if_pos h]
    exact hgen _ _
  · rw [if_neg (by rw [h]; decide), if_neg (by rw [h]; decide), if_pos h]
    exact hgen _ _
  · rw [if_neg (by rw [h]; decide), if_neg (by rw [h]; decide),
      if_neg (by rw [h]; decide), if_pos h]
    unfold addAndgetBlurbForTypingUsers
    cases hc : strTruthy e.data.user
    · exact hgen _ _
    · exact hgen _ _
  · rw [if_neg (by rw [h]; decide), if_neg (by rw [h]; decide),
      if_neg (by rw [h]; decide), if_neg (by rw [h]; decide), if_pos h]
    unfold deleteBlurbForTypingUsers
    rcases hx : mapLookup s2.typingUsers e.data.conversationId with _ | l
    · exact hgen _ _
    · simp only [hx]
      split_ifs <;> exact hgen _ _

/-- A known-kind dispatch changes no registry entry other than the one at
the event's conversation id. -/
theorem dispatch_known_lookup_ne (s2 : Store) (e : ConversationEvent)
    (conv : Conversation) (c : String)
    (h : e.type = EventType.MessageReceived ∨ e.type = EventType.Assigned
      ∨ e.type = EventType.Unassigned ∨ e.type = EventType.TypingStarted
      ∨ e.type = EventType.TypingStopped)
    (hc : c ≠ e.data.conversationId) :
    mapLookup (dispatchEvent s2 e conv).conversations c
      = mapLookup s2.conversations c := by
  have hgen : ∀ (st : Store) (cv : Conversation),
      st.conversations = s2.conversations →
      mapLookup (finishKnown st e.data.conversationId e.data.timestamp cv).conversations c
      = mapLookup s2.conversations c := by
    intro st cv hst
    rw [finishKnown_lookup_ne _ _ _ _ _ hc, hst]
  unfold dispatchEvent
  rcases h with h | h | h | h | h
  · rw [if_pos h]
    rcases hx : mapLookup s2.typingUsers e.data.conversationId with _ | l
    · exact hgen _ _ rfl
    · simp only [hx]
      split_ifs
      · exact hgen _ _ rfl
      · exact hgen _ _ rfl
  · rw [if_neg (by rw [h]; decide), if_pos h]
    exact hgen _ _ rfl
  · rw [if_neg (by rw [h]; decide), if_neg (by rw [h]; decide), if_pos h]
    exact hgen _ _ rfl
  · rw [if_neg (by rw [h]; decide), if_neg (by rw [h]; decide),
      if_neg (by rw [h]; decide), if_pos h]
    unfold addAndgetBlurbForTypingUsers
    cases hu : strTruthy e.data.user
    · exact hgen _ _ rfl
    · exact hgen _ _ rfl
  · rw [if_neg (by rw [h]; decide), if_neg (by rw [h]; decide),
      if_neg (by rw [h]; decide), if_neg (by rw [h]; decide), if_pos h]
    unfold deleteBlurbForTypingUsers
    rcases hx : mapLookup s2.typingUsers e.data.conversationId with _ | l
    · exact hgen _ _ rfl
    · simp only [hx]
      split_ifs <;> exact hgen _ _ rfl

/-- Prune result when the entry is absent. -/
theorem prune_missing (s : Store) (c : String)
    (h : mapLookup s.conversations c = none) :
    (isConversationEmptyThenRemove s c).1 = s := by
  unfold isConversationEmptyThenRemove
  rw [h]

/-- Prune result when the entry exists in the default shape. -/
theorem prune_default (s : Store) (c : String) (conv0 : Conversation)
    (h : mapLookup s.conversations c = some conv0)
    (hemp : (conv0.assignedUser == none && conv0.subject == ""
      && conv0.blurb == "" && conv0.messageCount == 0
      && conv0.lastUpdatedTimestamp == 0) = true) :
    (isConversationEmptyThenRemove s c).1
      = { s with conversations := mapDelete s.conversations c } := by
  unfold isConversationEmptyThenRemove
  rw [h]
  simp only [hemp]
  simp

/-- Prune result when the entry exists but is not in the default shape. -/
theorem prune_nondefault (s : Store) (c : String) (conv0 : Conversation)
    (h : mapLookup s.conversations c = some conv0)
    (hemp : (conv0.assignedUser == none && conv0.subject == ""
      && conv0.blurb == "" && conv0.messageCount == 0
      && conv0.lastUpdatedTimestamp == 0) = false) :
    (isConversationEmptyThenRemove s c).1 = s := by
  unfold isConversationEmptyThenRemove
  rw [h]
  simp only [hemp]
  rfl

theorem idConsistent_empty : IdConsistent Store.empty := by
  intro c conv h
  simp [mapLookup, Store.empty] at h

theorem idConsistent_handleEvent (s : Store) (e : ConversationEvent)
    (hid : IdConsistent s) : IdConsistent (handleEvent s e) := by
  by_cases h1 : e.data.timestamp = 0
  · rw [handleEvent_ts_zero s e h1]; exact hid
  by_cases h2 : e.data.conversationId = ""
  · rw [handleEvent_cid_empty s e h2]; exact hid
  by_cases h3 : staleFor s e = true
  · rw [handleEvent_stale s e h3]; exact hid
  have h3' : staleFor s e = false := by
    revert h3; cases staleFor s e <;> simp
  by_cases h4 : s.uniqueEvents.contains (eventKey e) = true
  · rw [handleEvent_dup s e h4]; exact hid
  have h4' : s.uniqueEvents.contains (eventKey e) = false := by
    revert h4; cases s.uniqueEvents.contains (eventKey e) <;> simp
  by_cases hkn : e.type = EventType.MessageReceived
      ∨ e.type = EventType.Assigned ∨ e.type = EventType.Unassigned
      ∨ e.type = EventType.TypingStarted ∨ e.type = EventType.TypingStopped
  · rw [handleEvent_accepted s e h1 h2 h3' h4']
    intro c conv' h'
    by_cases hc : c = e.data.conversationId
    · subst hc
      have hself := dispatch_known_lookup_self (acceptedStore s e) e
        ((mapLookup (acceptedStore s e).conversations e.data.conversationId).getD
          (defaultConversation e.data.conversationId)) hkn
      rw [h'] at hself
      have hcid : ((mapLookup (acceptedStore s e).conversations
          e.data.conversationId).getD (defaultConversation e.data.conversationId)).id
          = e.data.conversationId := by
        rw [acceptedStore_lookup_self]
        rcases hl : mapLookup s.conversations e.data.conversationId with _ | c0
        · rfl
        · exact hid e.data.conversationId c0 hl
      simp only [Option.map_some'] at hself
      have hids := congrArg Prod.fst (Option.some.inj hself)
      exact hids.trans hcid
    · rw [dispatch_known_lookup_ne _ e _ c hkn hc, acceptedStore_lookup_ne s e c hc] at h'
      exact hid c conv' h'
  · push_neg at hkn
    obtain ⟨hm, ha, hu, hst, hsp⟩ := hkn
    rcases hconv0 : mapLookup s.conversations e.data.conversationId with _ | conv0
    · rw [handleEvent_unknown_fresh s e h1 h2 hconv0 h4' hm ha hu hst hsp]
      exact hid
    · rw [handleEvent_unknown_existing s e conv0 h1 h2 h3' hconv0 h4' hm ha hu hst hsp]
      by_cases hemp : (conv0.assignedUser == none && conv0.subject == ""
          && conv0.blurb == "" && conv0.messageCount == 0
          && conv0.lastUpdatedTimestamp == 0) = true
      · rw [prune_default s e.data.conversationId conv0 hconv0 hemp]
        intro c conv' h'
        have h'' : mapLookup (mapDelete s.conversations e.data.conversationId) c
            = some conv' := h'
        by_cases hc : c = e.data.conversationId
        · rw [hc, mapLookup_mapDelete_self] at h''
          exact absurd h'' (by simp)
        · rw [mapLookup_mapDelete_ne _ _ _ hc] at h''
          exact hid c conv' h''
      · have hemp' : (conv0.assignedUser == none && conv0.subject == ""
            && conv0.blurb == "" && conv0.messageCount == 0
            && conv0.lastUpdatedTimestamp == 0) = false := by
          revert hemp
          cases conv0.assignedUser == none && conv0.subject == ""
              && conv0.blurb == "" && conv0.messageCount == 0
              && conv0.lastUpdatedTimestamp == 0 <;> simp
        rw [prune_nondefault s e.data.conversationId conv0 hconv0 hemp']
        exact hid

/-- Reachable stores are id-consistent. -/
theorem reachable_idConsistent (s : Store) (hs : Reachable s) : IdConsistent s := by
  induction hs with
  | empty => exact idConsistent_empty
  | step e _ ih => exact idConsistent_handleEvent _ e ih

/-- The first 256 characters of a string are at most 256 characters. -/
theorem strTake_256_le (b : String) : (strTake b 256).length ≤ 256 := by
  show (b.data.take 256).length ≤ 256
  rw [List.length_take]
  omega

/-- Registry conversations as written back by a known arm. -/
theorem finishKnown_conversations (s : Store) (c : String) (ts : Nat)
    (conv : Conversation) :
    (finishKnown s c ts conv).conversations
      = mapInsert s.conversations c ({ conv with lastUpdatedTimestamp := ts }) := rfl

theorem blurbInvariant_empty : BlurbInvariant Store.empty := by
  intro c conv h
  simp [mapLookup, Store.empty] at h

/-- Transfer a blurb disjunct across typing/pending components that agree
at the inspected key. -/
theorem blurb_disj_transfer (s : Store) (u' : List (String × List String))
    (b' : List (String × String)) (c : String) (bl : String)
    (hu : mapLookup u' c = mapLookup s.typingUsers c)
    (hb : mapLookup b' c = mapLookup s.lastBody c)
    (hd : bl.length ≤ 256
      ∨ bl = typingPhrase ((mapLookup s.typingUsers c).getD [])
      ∨ ((mapLookup s.typingUsers c = none ∨ mapLookup s.typingUsers c = some [])
          ∧ bl = (mapLookup s.lastBody c).getD "")) :
    bl.length ≤ 256
    ∨ bl = typingPhrase ((mapLookup u' c).getD [])
    ∨ ((mapLookup u' c = none ∨ mapLookup u' c = some [])
        ∧ bl = (mapLookup b' c).getD "") := by
  rw [hu, hb]
  exact hd

/-- The default-shape creation satisfies every blurb disjunct. -/
theorem blurb_disj_small (u' : List (String × List String))
    (b' : List (String × String)) (c : String) (bl : String)
    (h : bl.length ≤ 256) :
    bl.length ≤ 256
    ∨ bl = typingPhrase ((mapLookup u' c).getD [])
    ∨ ((mapLookup u' c = none ∨ mapLookup u' c = some [])
        ∧ bl = (mapLookup b' c).getD "") := Or.inl h

theorem blurbInvariant_handleEvent (s : Store) (e : ConversationEvent)
    (hin : BlurbInvariant s) : BlurbInvariant (handleEvent s e) := by
  by_cases h1 : e.data.timestamp = 0
  · rw [handleEvent_ts_zero s e h1]; exact hin
  by_cases h2 : e.data.conversationId = ""
  · rw [handleEvent_cid_empty s e h2]; exact hin
  by_cases h3 : staleFor s e = true
  · rw [handleEvent_stale s e h3]; exact hin
  have h3' : staleFor s e = false := by
    revert h3; cases staleFor s e <;> simp
  by_cases h4 : s.uniqueEvents.contains (eventKey e) = true
  · rw [handleEvent_dup s e h4]; exact hin
  have h4' : s.uniqueEvents.contains (eventKey e) = false := by
    revert h4; cases s.uniqueEvents.contains (eventKey e) <;> simp
  -- the conversation handed to the dispatch, and its blurb facts
  have hDgood :
      ((mapLookup (acceptedStore s e).conversations e.data.conversationId).getD
        (defaultConversation e.data.conversationId)).blurb.length ≤ 256
      ∨ ((mapLookup (acceptedStore s e).conversations e.data.conversationId).getD
          (defaultConversation e.data.conversationId)).blurb
        = typingPhrase ((mapLookup s.typingUsers e.data.conversationId).getD [])
      ∨ ((mapLookup s.typingUsers e.data.conversationId = none
          ∨ mapLookup s.typingUsers e.data.conversationId = some [])
          ∧ ((mapLookup (acceptedStore s e).conversations e.data.conversationId).getD
            (defaultConversation e.data.conversationId)).blurb
            = (mapLookup s.lastBody e.data.conversationId).getD "") := by
    rw [acceptedStore_lookup_self]
    simp only [Option.getD_some]
    rcases hold : mapLookup s.conversations e.data.conversationId with _ | convOld
    · exact Or.inl (by simp [defaultConversation])
    · exact hin e.data.conversationId convOld hold
  by_cases hmty : e.type = EventType.MessageReceived
  · -- MessageReceived
    rw [handleEvent_accepted s e h1 h2 h3' h4']
    rcases hx : mapLookup (acceptedStore s e).typingUsers e.data.conversationId
      with _ | l
    · -- no typing set
      rw [dispatchEvent_message_typingEmpty _ e _ hmty (Or.inl hx)]
      intro c conv' h'
      rw [finishKnown_conversations] at h'
      rw [show (finishKnown (acceptedStore s e) e.data.conversationId e.data.timestamp
          ({ (mapLookup (acceptedStore s e).conversations e.data.conversationId).getD
              (defaultConversation e.data.conversationId) with
            subject := strOr e.data.subject
              ((mapLookup (acceptedStore s e).conversations e.data.conversationId).getD
                (defaultConversation e.data.conversationId)).subject,
            messageCount :=
              ((mapLookup (acceptedStore s e).conversations e.data.conversationId).getD
                (defaultConversation e.data.conversationId)).messageCount + 1,
            blurb := strOr (e.data.body.map (fun b => strTake b 256))
              ((mapLookup (acceptedStore s e).conversations e.data.conversationId).getD
                (defaultConversation e.data.conversationId)).blurb })).typingUsers
        = s.typingUsers from acceptedStore_typingUsers s e]
      rw [show (finishKnown (acceptedStore s e) e.data.conversationId e.data.timestamp
          ({ (mapLookup (acceptedStore s e).conversations e.data.conversationId).getD
              (defaultConversation e.data.conversationId) with
            subject := strOr e.data.subject
              ((mapLookup (acceptedStore s e).conversations e.data.conversationId).getD
                (defaultConversation e.data.conversationId)).subject,
            messageCount :=
              ((mapLookup (acceptedStore s e).conversations e.data.conversationId).getD
                (defaultConversation e.data.conversationId)).messageCount + 1,
            blurb := strOr (e.data.body.map (fun b => strTake b 256))
              ((mapLookup (acceptedStore s e).conversations e.data.conversationId).getD
                (defaultConversation e.data.conversationId)).blurb })).lastBody
        = s.lastBody from acceptedStore_lastBody s e]
      by_cases hc : c = e.data.conversationId
      · subst hc
        rw [mapLookup_mapInsert_self] at h'
        cases Option.some.inj h'
        rcases hb : e.data.body with _ | b
        · -- body absent: blurb unchanged
          rcases hDgood with hle | hph | hpend
          · exact Or.inl (by simpa [strOr] using hle)
          · exact Or.inr (Or.inl (by simpa [strOr] using hph))
          · exact Or.inr (Or.inr ⟨hpend.1, by simpa [strOr] using hpend.2⟩)
        · by_cases hbe : strTake b 256 = ""
          · -- empty slice: blurb unchanged
            rcases hDgood with hle | hph | hpend
            · exact Or.inl (by simpa [strOr, hbe] using hle)
            · exact Or.inr (Or.inl (by simpa [strOr, hbe] using hph))
            · exact Or.inr (Or.inr ⟨hpend.1, by simpa [strOr, hbe] using hpend.2⟩)
          · exact Or.inl (by simpa [strOr, hbe] using strTake_256_le b)
      · rw [mapLookup_mapInsert_ne _ _ _ _ hc, acceptedStore_lookup_ne s e c hc] at h'
        exact hin c conv' h'
    · -- users are typing: body stashed
      have hlne : l ≠ [] ∨ l = [] := (em _).symm
      rcases hlne with hlne | hleq
      · rw [dispatchEvent_message_typingBusy _ e _ l hmty hx hlne]
        intro c conv' h'
        rw [finishKnown_conversations] at h'
        rw [show (finishKnown
            ({ acceptedStore s e with
                lastBody := mapInsert (acceptedStore s e).lastBody e.data.conversationId
                  (e.data.body.getD "") })
            e.data.conversationId e.data.timestamp
            ({ (mapLookup (acceptedStore s e).conversations e.data.conversationId).getD
                (defaultConversation e.data.conversationId) with
              subject := strOr e.data.subject
                ((mapLookup (acceptedStore s e).conversations e.data.conversationId).getD
                  (defaultConversation e.data.conversationId)).subject,
              messageCount :=
                ((mapLookup (acceptedStore s e).conversations e.data.conversationId).getD
                  (defaultConversation e.data.conversationId)).messageCount + 1 })).typingUsers
          = s.typingUsers from acceptedStore_typingUsers s e]
        rw [show (finishKnown
            ({ acceptedStore s e with
                lastBody := mapInsert (acceptedStore s e).lastBody e.data.conversationId
                  (e.data.body.getD "") })
            e.data.conversationId e.data.timestamp
            ({ (mapLookup (acceptedStore s e).conversations e.data.conversationId).getD
                (defaultConversation e.data.conversationId) with
              subject := strOr e.data.subject
                ((mapLookup (acceptedStore s e).conversations e.data.conversationId).getD
                  (defaultConversation e.data.conversationId)).subject,
              messageCount :=
                ((mapLookup (acceptedStore s e).conversations e.data.conversationId).getD
                  (defaultConversation e.data.conversationId)).messageCount + 1 })).lastBody
          = mapInsert (acceptedStore s e).lastBody e.data.conversationId
              (e.data.body.getD "") from rfl]
        rw [acceptedStore_lastBody]
        by_cases hc : c = e.data.conversationId
        · subst hc
          rw [mapLookup_mapInsert_self] at h'
          cases Option.some.inj h'
          have hxs : mapLookup s.typingUsers e.data.conversationId = some l := by
            rw [← acceptedStore_typingUsers s e]; exact hx
          rcases hDgood with hle | hph | hpend
          · exact Or.inl hle
          · exact Or.inr (Or.inl hph)
          · rcases hpend.1 with hn | hs0
            · rw [hxs] at hn; exact absurd hn (by simp)
            · rw [hxs] at hs0
              exact absurd (Option.some.inj hs0) hlne
        · rw [mapLookup_mapInsert_ne _ _ _ _ hc, acceptedStore_lookup_ne s e c hc] at h'
          refine blurb_disj_transfer s _ _ c conv'.blurb rfl
            (mapLookup_mapInsert_ne _ _ _ _ hc) (hin c conv' h')
      · rw [dispatchEvent_message_typingEmpty _ e _ hmty (Or.inr (hleq ▸ hx))]
        intro c conv' h'
        rw [finishKnown_conversations] at h'
        rw [show (finishKnown (acceptedStore s e) e.data.conversationId e.data.timestamp
            ({ (mapLookup (acceptedStore s e).conversations e.data.conversationId).getD
                (defaultConversation e.data.conversationId) with
              subject := strOr e.data.subject
                ((mapLookup (acceptedStore s e).conversations e.data.conversationId).getD
                  (defaultConversation e.data.conversationId)).subject,
              messageCount :=
                ((mapLookup (acceptedStore s e).conversations e.data.conversationId).getD
                  (defaultConversation e.data.conversationId)).messageCount + 1,
              blurb := strOr (e.data.body.map (fun b => strTake b 256))
                ((mapLookup (acceptedStore s e).conversations e.data.conversationId).getD
                  (defaultConversation e.data.conversationId)).blurb })).typingUsers
          = s.typingUsers from acceptedStore_typingUsers s e]
        rw [show (finishKnown (acceptedStore s e) e.data.conversationId e.data.timestamp
            ({ (mapLookup (acceptedStore s e).conversations e.data.conversationId).getD
                (defaultConversation e.data.conversationId) with
              subject := strOr e.data.subject
                ((mapLookup (acceptedStore s e).conversations e.data.conversationId).getD
                  (defaultConversation e.data.conversationId)).subject,
              messageCount :=
                ((mapLookup (acceptedStore s e).conversations e.data.conversationId).getD
                  (defaultConversation e.data.conversationId)).messageCount + 1,
              blurb := strOr (e.data.body.map (fun b => strTake b 256))
                ((mapLookup (acceptedStore s e).conversations e.data.conversationId).getD
                  (defaultConversation e.data.conversationId)).blurb })).lastBody
          = s.lastBody from acceptedStore_lastBody s e]
        by_cases hc : c = e.data.conversationId
        · subst hc
          rw [mapLookup_mapInsert_self] at h'
          cases Option.some.inj h'
          rcases hb : e.data.body with _ | b
          · rcases hDgood with hle | hph | hpend
            · exact Or.inl (by simpa [strOr] using hle)
            · exact Or.inr (Or.inl (by simpa [strOr] using hph))
            · exact Or.inr (Or.inr ⟨hpend.1, by simpa [strOr] using hpend.2⟩)
          · by_cases hbe : strTake b 256 = ""
            · rcases hDgood with hle | hph | hpend
              · exact Or.inl (by simpa [strOr, hbe] using hle)
              · exact Or.inr (Or.inl (by simpa [strOr, hbe] using hph))
              · exact Or.inr (Or.inr ⟨hpend.1, by simpa [strOr, hbe] using hpend.2⟩)
            · exact Or.inl (by simpa [strOr, hbe] using strTake_256_le b)
        · rw [mapLookup_mapInsert_ne _ _ _ _ hc, acceptedStore_lookup_ne s e c hc] at h'
          exact hin c conv' h'
  by_cases haty : e.type = EventType.Assigned
  · rw [handleEvent_accepted s e h1 h2 h3' h4', dispatchEvent_assigned _ e _ haty]
    intro c conv' h'
    rw [finishKnown_conversations] at h'
    rw [show (finishKnown (acceptedStore s e) e.data.conversationId e.data.timestamp
        ({ (mapLookup (acceptedStore s e).conversations e.data.conversationId).getD
            (defaultConversation e.data.conversationId) with
          assignedUser := match e.data.user with
            | some u => if u = "" then none else some u
            | none => none })).typingUsers
      = s.typingUsers from acceptedStore_typingUsers s e]
    rw [show (finishKnown (acceptedStore s e) e.data.conversationId e.data.timestamp
        ({ (mapLookup (acceptedStore s e).conversations e.data.conversationId).getD
            (defaultConversation e.data.conversationId) with
          assignedUser := match e.data.user with
            | some u => if u = "" then none else some u
            | none => none })).lastBody
      = s.lastBody from acceptedStore_lastBody s e]
    by_cases hc : c = e.data.conversationId
    · subst hc
      rw [mapLookup_mapInsert_self] at h'
      cases Option.some.inj h'
      exact hDgood
    · rw [mapLookup_mapInsert_ne _ _ _ _ hc, acceptedStore_lookup_ne s e c hc] at h'
      exact hin c conv' h'
  by_cases huty : e.type = EventType.Unassigned
  · rw [handleEvent_accepted s e h1 h2 h3' h4', dispatchEvent_unassigned _ e _ huty]
    intro c conv' h'
    rw [finishKnown_conversations] at h'
    rw [show (finishKnown (acceptedStore s e) e.data.conversationId e.data.timestamp
        ({ (mapLookup (acceptedStore s e).conversations e.data.conversationId).getD
            (defaultConversation e.data.conversationId) with
          assignedUser := none })).typingUsers
      = s.typingUsers from acceptedStore_typingUsers s e]
    rw [show (finishKnown (acceptedStore s e) e.data.conversationId e.data.timestamp
        ({ (mapLookup (acceptedStore s e).conversations e.data.conversationId).getD
            (defaultConversation e.data.conversationId) with
          assignedUser := none })).lastBody
      = s.lastBody from acceptedStore_lastBody s e]
    by_cases hc : c = e.data.conversationId
    · subst hc
      rw [mapLookup_mapInsert_self] at h'
      cases Option.some.inj h'
      exact hDgood
    · rw [mapLookup_mapInsert_ne _ _ _ _ hc, acceptedStore_lookup_ne s e c hc] at h'
      exact hin c conv' h'
  by_cases hsty : e.type = EventType.TypingStarted
  · rw [handleEvent_accepted s e h1 h2 h3' h4', dispatchEvent_typingStarted _ e _ hsty]
    intro c conv' h'
    unfold addAndgetBlurbForTypingUsers at h' ⊢
    cases hu : strTruthy e.data.user
    · simp only [hu, Bool.false_eq_true, if_false] at h' ⊢
      rw [finishKnown_conversations] at h'
      rw [show (finishKnown (acceptedStore s e) e.data.conversationId e.data.timestamp
          ({ (mapLookup (acceptedStore s e).conversations e.data.conversationId).getD
              (defaultConversation e.data.conversationId) with
            blurb := getBlurbForTypingUsers (acceptedStore s e)
              e.data.conversationId })).typingUsers
        = s.typingUsers from acceptedStore_typingUsers s e]
      rw [show (finishKnown (acceptedStore s e) e.data.conversationId e.data.timestamp
          ({ (mapLookup (acceptedStore s e).conversations e.data.conversationId).getD
              (defaultConversation e.data.conversationId) with
            blurb := getBlurbForTypingUsers (acceptedStore s e)
              e.data.conversationId })).lastBody
        = s.lastBody from acceptedStore_lastBody s e]
      by_cases hc : c = e.data.conversationId
      · subst hc
        rw [mapLookup_mapInsert_self] at h'
        cases Option.some.inj h'
        refine Or.inr (Or.inl ?_)
        show getBlurbForTypingUsers (acceptedStore s e) e.data.conversationId
          = typingPhrase ((mapLookup s.typingUsers e.data.conversationId).getD [])
        unfold getBlurbForTypingUsers
        rw [acceptedStore_typingUsers]
      · rw [mapLookup_mapInsert_ne _ _ _ _ hc, acceptedStore_lookup_ne s e c hc] at h'
        exact hin c conv' h'
    · simp only [hu, if_true] at h' ⊢
      rw [finishKnown_conversations] at h'
      rw [show (finishKnown
          ({ acceptedStore s e with
              typingUsers := mapInsert (acceptedStore s e).typingUsers
                e.data.conversationId
                (setAdd ((mapLookup (acceptedStore s e).typingUsers
                    e.data.conversationId).getD [])
                  (e.data.user.getD "")) })
          e.data.conversationId e.data.timestamp
          ({ (mapLookup (acceptedStore s e).conversations e.data.conversationId).getD
              (defaultConversation e.data.conversationId) with
            blurb := getBlurbForTypingUsers
              ({ acceptedStore s e with
                  typingUsers := mapInsert (acceptedStore s e).typingUsers
                    e.data.conversationId
                    (setAdd ((mapLookup (acceptedStore s e).typingUsers
                        e.data.conversationId).getD [])
                      (e.data.user.getD "")) })
              e.data.conversationId })).typingUsers
        = mapInsert (acceptedStore s e).typingUsers e.data.conversationId
            (setAdd ((mapLookup (acceptedStore s e).typingUsers
                e.data.conversationId).getD [])
              (e.data.user.getD "")) from rfl]
      rw [show (finishKnown
          ({ acceptedStore s e with
              typingUsers := mapInsert (acceptedStore s e).typingUsers
                e.data.conversationId
                (setAdd ((mapLookup (acceptedStore s e).typingUsers
                    e.data.conversationId).getD [])
                  (e.data.user.getD "")) })
          e.data.conversationId e.data.timestamp
          ({ (mapLookup (acceptedStore s e).conversations e.data.conversationId).getD
              (defaultConversation e.data.conversationId) with
            blurb := getBlurbForTypingUsers
              ({ acceptedStore s e with
                  typingUsers := mapInsert (acceptedStore s e).typingUsers
                    e.data.conversationId
                    (setAdd ((mapLookup (acceptedStore s e).typingUsers
                        e.data.conversationId).getD [])
                      (e.data.user.getD "")) })
              e.data.conversationId })).lastBody
        = s.lastBody from acceptedStore_lastBody s e]
      by_cases hc : c = e.data.conversationId
      · subst hc
        rw [mapLookup_mapInsert_self] at h'
        cases Option.some.inj h'
        refine Or.inr (Or.inl ?_)
        unfold getBlurbForTypingUsers
        rw [show ({ acceptedStore s e with
            typingUsers := mapInsert (acceptedStore s e).typingUsers
              e.data.conversationId
              (setAdd ((mapLookup (acceptedStore s e).typingUsers
                  e.data.conversationId).getD [])
                (e.data.user.getD "")) } : Store).typingUsers
          = mapInsert (acceptedStore s e).typingUsers e.data.conversationId
              (setAdd ((mapLookup (acceptedStore s e).typingUsers
                  e.data.conversationId).getD [])
                (e.data.user.getD "")) from rfl]
      · rw [mapLookup_mapInsert_ne _ _ _ _ hc, acceptedStore_lookup_ne s e c hc] at h'
        refine blurb_disj_transfer s _ _ c conv'.blurb ?_ rfl (hin c conv' h')
        rw [mapLookup_mapInsert_ne _ _ _ _ hc, acceptedStore_typingUsers]
  by_cases hpty : e.type = EventType.TypingStopped
  · rw [handleEvent_accepted s e h1 h2 h3' h4', dispatchEvent_typingStopped _ e _ hpty]
    rcases hx : mapLookup (acceptedStore s e).typingUsers e.data.conversationId
      with _ | l
    · rw [deleteBlurb_noSet _ _ _ hx]
      intro c conv' h'
      rw [finishKnown_conversations] at h'
      rw [show (finishKnown (acceptedStore s e) e.data.conversationId e.data.timestamp
          ({ (mapLookup (acceptedStore s e).conversations e.data.conversationId).getD
              (defaultConversation e.data.conversationId) with
            blurb := ((acceptedStore s e, "")
              : Store × String).2 })).typingUsers
        = s.typingUsers from acceptedStore_typingUsers s e]
      rw [show (finishKnown (acceptedStore s e) e.data.conversationId e.data.timestamp
          ({ (mapLookup (acceptedStore s e).conversations e.data.conversationId).getD
              (defaultConversation e.data.conversationId) with
            blurb := ((acceptedStore s e, "")
              : Store × String).2 })).lastBody
        = s.lastBody from acceptedStore_lastBody s e]
      by_cases hc : c = e.data.conversationId
      · subst hc
        rw [mapLookup_mapInsert_self] at h'
        cases Option.some.inj h'
        exact Or.inl (by simp)
      · rw [mapLookup_mapInsert_ne _ _ _ _ hc, acceptedStore_lookup_ne s e c hc] at h'
        exact hin c conv' h'
    · by_cases hres : (if strTruthy e.data.user
          then setDelete l (e.data.user.getD "") else l) = []
      · rw [deleteBlurb_toEmpty _ _ _ l hx hres]
        intro c conv' h'
        rw [finishKnown_conversations] at h'
        rw [show (finishKnown
            ({ acceptedStore s e with
                typingUsers := mapDelete (acceptedStore s e).typingUsers
                  e.data.conversationId },
              (mapLookup (acceptedStore s e).lastBody e.data.conversationId).getD "").1
            e.data.conversationId e.data.timestamp
            ({ (mapLookup (acceptedStore s e).conversations e.data.conversationId).getD
                (defaultConversation e.data.conversationId) with
              blurb := (({ acceptedStore s e with
                  typingUsers := mapDelete (acceptedStore s e).typingUsers
                    e.data.conversationId },
                (mapLookup (acceptedStore s e).lastBody e.data.conversationId).getD "")
                : Store × String).2 })).typingUsers
          = mapDelete (acceptedStore s e).typingUsers e.data.conversationId from rfl]
        rw [show (finishKnown
            ({ acceptedStore s e with
                typingUsers := mapDelete (acceptedStore s e).typingUsers
                  e.data.conversationId },
              (mapLookup (acceptedStore s e).lastBody e.data.conversationId).getD "").1
            e.data.conversationId e.data.timestamp
            ({ (mapLookup (acceptedStore s e).conversations e.data.conversationId).getD
                (defaultConversation e.data.conversationId) with
              blurb := (({ acceptedStore s e with
                  typingUsers := mapDelete (acceptedStore s e).typingUsers
                    e.data.conversationId },
                (mapLookup (acceptedStore s e).lastBody e.data.conversationId).getD "")
                : Store × String).2 })).lastBody
          = s.lastBody from acceptedStore_lastBody s e]
        by_cases hc : c = e.data.conversationId
        · subst hc
          rw [mapLookup_mapInsert_self] at h'
          cases Option.some.inj h'
          refine Or.inr (Or.inr ⟨Or.inl ?_, ?_⟩)
          · rw [show (acceptedStore s e).typingUsers = s.typingUsers
              from acceptedStore_typingUsers s e] at hx ⊢
            exact mapLookup_mapDelete_self _ _
          · show ((mapLookup (acceptedStore s e).lastBody e.data.conversationId).getD "")
              = (mapLookup s.lastBody e.data.conversationId).getD ""
            rw [acceptedStore_lastBody]
        · rw [mapLookup_mapInsert_ne _ _ _ _ hc, acceptedStore_lookup_ne s e c hc] at h'
          refine blurb_disj_transfer s _ _ c conv'.blurb ?_ rfl (hin c conv' h')
          rw [mapLookup_mapDelete_ne _ _ _ hc, acceptedStore_typingUsers]
      · rw [deleteBlurb_nonEmpty _ _ _ l hx hres]
        intro c conv' h'
        rw [finishKnown_conversations] at h'
        rw [show (finishKnown
            ({ acceptedStore s e with
                typingUsers := mapInsert (acceptedStore s e).typingUsers
                  e.data.conversationId
                  (if strTruthy e.data.user then setDelete l (e.data.user.getD "")
                   else l) },
              typingPhrase (if strTruthy e.data.user
                then setDelete l (e.data.user.getD "") else l)).1
            e.data.conversationId e.data.timestamp
            ({ (mapLookup (acceptedStore s e).conversations e.data.conversationId).getD
                (defaultConversation e.data.conversationId) with
              blurb := (({ acceptedStore s e with
                  typingUsers := mapInsert (acceptedStore s e).typingUsers
                    e.data.conversationId
                    (if strTruthy e.data.user then setDelete l (e.data.user.getD "")
                     else l) },
                typingPhrase (if strTruthy e.data.user
                  then setDelete l (e.data.user.getD "") else l))
                : Store × String).2 })).typingUsers
          = mapInsert (acceptedStore s e).typingUsers e.data.conversationId
              (if strTruthy e.data.user then setDelete l (e.data.user.getD "")
               else l) from rfl]
        rw [show (finishKnown
            ({ acceptedStore s e with
                typingUsers := mapInsert (acceptedStore s e).typingUsers
                  e.data.conversationId
                  (if strTruthy e.data.user then setDelete l (e.data.user.getD "")
                   else l) },
              typingPhrase (if strTruthy e.data.user
                then setDelete l (e.data.user.getD "") else l)).1
            e.data.conversationId e.data.timestamp
            ({ (mapLookup (acceptedStore s e).conversations e.data.conversationId).getD
                (defaultConversation e.data.conversationId) with
              blurb := (({ acceptedStore s e with
                  typingUsers := mapInsert (acceptedStore s e).typingUsers
                    e.data.conversationId
                    (if strTruthy e.data.user then setDelete l (e.data.user.getD "")
                     else l) },
                typingPhrase (if strTruthy e.data.user
                  then setDelete l (e.data.user.getD "") else l))
                : Store × String).2 })).lastBody
          = s.lastBody from acceptedStore_lastBody s e]
        by_cases hc : c = e.data.conversationId
        · subst hc
          rw [mapLookup_mapInsert_self] at h'
          cases Option.some.inj h'
          refine Or.inr (Or.inl ?_)
          show typingPhrase (if strTruthy e.data.user
              then setDelete l (e.data.user.getD "") else l)
            = typingPhrase ((mapLookup (mapInsert (acceptedStore s e).typingUsers
                e.data.conversationId
                (if strTruthy e.data.user then setDelete l (e.data.user.getD "")
                 else l)) e.data.conversationId).getD [])
          rw [mapLookup_mapInsert_self]
          rfl
        · rw [mapLookup_mapInsert_ne _ _ _ _ hc, acceptedStore_lookup_ne s e c hc] at h'
          refine blurb_disj_transfer s _ _ c conv'.blurb ?_ rfl (hin c conv' h')
          rw [mapLookup_mapInsert_ne _ _ _ _ hc, acceptedStore_typingUsers]
  · -- unknown kind
    rcases hconv0 : mapLookup s.conversations e.data.conversationId with _ | conv0
    · rw [handleEvent_unknown_fresh s e h1 h2 hconv0 h4' hmty haty huty hsty hpty]
      exact hin
    · rw [handleEvent_unknown_existing s e conv0 h1 h2 h3' hconv0 h4'
        hmty haty huty hsty hpty]
      by_cases hemp : (conv0.assignedUser == none && conv0.subject == ""
          && conv0.blurb == "" && conv0.messageCount == 0
          && conv0.lastUpdatedTimestamp == 0) = true
      · rw [prune_default s e.data.conversationId conv0 hconv0 hemp]
        intro c conv' h'
        have h'' : mapLookup (mapDelete s.conversations e.data.conversationId) c
            = some conv' := h'
        by_cases hc : c = e.data.conversationId
        · rw [hc, mapLookup_mapDelete_self] at h''
          exact absurd h'' (by simp)
        · rw [mapLookup_mapDelete_ne _ _ _ hc] at h''
          exact hin c conv' h''
      · have hemp' : (conv0.assignedUser == none && conv0.subject == ""
            && conv0.blurb == "" && conv0.messageCount == 0
            && conv0.lastUpdatedTimestamp == 0) = false := by
          revert hemp
          cases conv0.assignedUser == none && conv0.subject == ""
              && conv0.blurb == "" && conv0.messageCount == 0
              && conv0.lastUpdatedTimestamp == 0 <;> simp
        rw [prune_nondefault s e.data.conversationId conv0 hconv0 hemp']
        exact hin

/-- Reachable stores satisfy the blurb bound invariant. -/
theorem reachable_blurbInvariant (s : Store) (hs : Reachable s) : BlurbInvariant s := by
  induction hs with
  | empty => exact blurbInvariant_empty
  | step e _ ih => exact blurbInvariant_handleEvent _ e ih

/-! ## Claim C9 -/

set_option maxRecDepth 10000 in
/-- Claim C9 (counterexample): an accepted `Assigned` event whose `user`
field is present but equal to the empty string sets `assignedUser` to
`null` rather than to the present empty string, so a present-but-empty
user is not distinguished from an absent one by this arm. -/
theorem C9_counterexample :
    (conversationOf
      (handleEvent Store.empty
        { type := "assigned",
          data := { timestamp := 1, conversationId := "c1", user := some "" } })
      "c1").map (fun c => c.assignedUser) = some none := by
  rfl

/-- Claim C9 (amended): for every accepted `Assigned` event,
`assignedUser` is set to the incoming user when the user field is present
and non-empty, and to `null` when it is absent or present-but-empty. -/
theorem C9_assigned_sets_user (s : Store) (e : ConversationEvent)
    (h1 : e.data.timestamp ≠ 0) (h2 : e.data.conversationId ≠ "")
    (h3 : staleFor s e = false)
    (h4 : s.uniqueEvents.contains (eventKey e) = false)
    (hty : e.type = EventType.Assigned) :
    (conversationOf (handleEvent s e) e.data.conversationId).map (fun c => c.assignedUser)
      = some (match e.data.user with
          | some u => if u = "" then none else some u
          | none => none) := by
  rw [handleEvent_accepted s e h1 h2 h3 h4]
  rw [dispatchEvent_assigned _ e _ hty]
  unfold conversationOf
  rw [finishKnown_lookup_self]
  simp

/-- Witness for C9: the amended rule evaluated on a concrete accepted
`Assigned` event carrying the user `"alice"`. -/
theorem C9_assigned_sets_user_witness :
    (conversationOf
      (handleEvent Store.empty
        { type := "assigned",
          data := { timestamp := 5, conversationId := "c2", user := some "alice" } })
      "c2").map (fun c => c.assignedUser) = some (some "alice") := by
  have h := C9_assigned_sets_user Store.empty
    { type := "assigned",
      data := { timestamp := 5, conversationId := "c2", user := some "alice" } }
    (by decide) (by decide) (by rfl) (by rfl) (by rfl)
  simpa using h

/-! ## Claim C10 -/

/-- Claim C10: at an accepted `MessageReceived` event, a present-but-empty
body leaves the blurb unchanged (when nobody is typing), a
present-but-empty subject leaves the subject unchanged, and replacing a
present-but-empty body or subject by an absent one produces the identical
resulting store. -/
theorem C10_blank_fields (s : Store) (e : ConversationEvent) (conv : Conversation)
    (h1 : e.data.timestamp ≠ 0) (h2 : e.data.conversationId ≠ "")
    (h3 : staleFor s e = false)
    (h4 : s.uniqueEvents.contains (eventKey e) = false)
    (hty : e.type = EventType.MessageReceived)
    (hconv : conversationOf s e.data.conversationId = some conv) :
    (typingEmptyFor s e.data.conversationId →
      (e.data.body = some "" ∨ e.data.body = none) →
      (conversationOf (handleEvent s e) e.data.conversationId).map (fun c => c.blurb)
        = some conv.blurb)
    ∧ ((e.data.subject = some "" ∨ e.data.subject = none) →
      (conversationOf (handleEvent s e) e.data.conversationId).map (fun c => c.subject)
        = some conv.subject)
    ∧ handleEvent s { e with data := { e.data with body := some "" } }
        = handleEvent s { e with data := { e.data with body := none } }
    ∧ handleEvent s { e with data := { e.data with subject := some "" } }
        = handleEvent s { e with data := { e.data with subject := none } } := by
  have hgetd :
      (mapLookup (acceptedStore s e).conversations e.data.conversationId).getD
        (defaultConversation e.data.conversationId) = conv := by
    rw [acceptedStore_lookup_self]
    unfold conversationOf at hconv
    rw [hconv]
    rfl
  refine ⟨?_, ?_, ?_, ?_⟩
  · intro htyping hbody
    rw [handleEvent_accepted s e h1 h2 h3 h4,
      dispatchEvent_message_typingEmpty _ e _ hty
        (typingEmptyFor_acceptedStore s e _ htyping), hgetd]
    unfold conversationOf
    rw [finishKnown_lookup_self]
    rcases hbody with hb | hb <;> rw [hb] <;> simp [strOr, strTake]
  · intro hsubj
    rw [handleEvent_accepted s e h1 h2 h3 h4, hgetd]
    rcases hl : mapLookup (acceptedStore s e).typingUsers e.data.conversationId with _ | l
    · rw [dispatchEvent_message_typingEmpty _ e _ hty (Or.inl hl)]
      unfold conversationOf
      rw [finishKnown_lookup_self]
      rcases hsubj with hb | hb <;> rw [hb] <;> simp [strOr]
    · cases l with
      | nil =>
        rw [dispatchEvent_message_typingEmpty _ e _ hty (Or.inr hl)]
        unfold conversationOf
        rw [finishKnown_lookup_self]
        rcases hsubj with hb | hb <;> rw [hb] <;> simp [strOr]
      | cons u tl =>
        rw [dispatchEvent_message_typingBusy _ e _ (u :: tl) hty hl (by simp)]
        unfold conversationOf
        rw [finishKnown_lookup_self]
        rcases hsubj with hb | hb <;> rw [hb] <;> simp [strOr]
  · rfl
  · rfl

/-- Witness for C10: a message with empty body and empty subject leaves
the blurb `"hello"` and subject `"Hi"` of the concrete conversation
untouched. -/
theorem C10_blank_fields_witness :
    (let s0 := handleEvent Store.empty
      { type := "messageReceived",
        data := { timestamp := 1, conversationId := "c1",
                  subject := some "Hi", body := some "hello" } };
    let e2 : ConversationEvent :=
      { type := "messageReceived",
        data := { timestamp := 2, conversationId := "c1",
                  subject := some "", body := some "" } };
    (conversationOf (handleEvent s0 e2) "c1").map (fun c => (c.blurb, c.subject))
      = some ("hello", "Hi")) := by
  have h := C10_blank_fields
    (handleEvent Store.empty
      { type := "messageReceived",
        data := { timestamp := 1, conversationId := "c1",
                  subject := some "Hi", body := some "hello" } })
    { type := "messageReceived",
      data := { timestamp := 2, conversationId := "c1",
                subject := some "", body := some "" } }
    { id := "c1", assignedUser := none, subject := "Hi", blurb := "hello",
      messageCount := 1, lastUpdatedTimestamp := 1 }
    (by decide) (by decide) rfl rfl rfl rfl
  have hb := h.1 (Or.inl rfl) (Or.inl rfl)
  have hs := h.2.1 (Or.inl rfl)
  simp only []
  rw [show (conversationOf
      (handleEvent
        (handleEvent Store.empty
          { type := "messageReceived",
            data := { timestamp := 1, conversationId := "c1",
                      subject := some "Hi", body := some "hello" } })
        { type := "messageReceived",
          data := { timestamp := 2, conversationId := "c1",
                    subject := some "", body := some "" } }) "c1").map
      (fun c => (c.blurb, c.subject))
    = ((conversationOf
      (handleEvent
        (handleEvent Store.empty
          { type := "messageReceived",
            data := { timestamp := 1, conversationId := "c1",
                      subject := some "Hi", body := some "hello" } })
        { type := "messageReceived",
          data := { timestamp := 2, conversationId := "c1",
                    subject := some "", body := some "" } }) "c1").map
      (fun c => c.blurb)).bind (fun bl =>
        ((conversationOf
          (handleEvent
            (handleEvent Store.empty
              { type := "messageReceived",
                data := { timestamp := 1, conversationId := "c1",
                          subject := some "Hi", body := some "hello" } })
            { type := "messageReceived",
              data := { timestamp := 2, conversationId := "c1",
                        subject := some "", body := some "" } }) "c1").map
          (fun c => c.subject)).map (fun sj => (bl, sj))) from by
      cases conversationOf
        (handleEvent
          (handleEvent Store.empty
            { type := "messageReceived",
              data := { timestamp := 1, conversationId := "c1",
                        subject := some "Hi", body := some "hello" } })
          { type := "messageReceived",
            data := { timestamp := 2, conversationId := "c1",
                      subject := some "", body := some "" } }) "c1" <;> rfl]
  rw [hb, hs]
  rfl

/-! ## Claim C6 -/

/-- Claim C6: an unknown-kind event (valid timestamp and id) arriving for
a fresh conversation id leaves the store exactly as it was: no registry
entry is created, the dedup key is not left recorded (so a resend with
the same key is re-processable), and no watermark is written. -/
theorem C6_unknown_first_event_no_trace (s : Store) (e : ConversationEvent)
    (h1 : e.data.timestamp ≠ 0) (h2 : e.data.conversationId ≠ "")
    (hconv : mapLookup s.conversations e.data.conversationId = none)
    (hdup : s.uniqueEvents.contains (eventKey e) = false)
    (hm : e.type ≠ EventType.MessageReceived) (ha : e.type ≠ EventType.Assigned)
    (hu : e.type ≠ EventType.Unassigned) (hst : e.type ≠ EventType.TypingStarted)
    (hsp : e.type ≠ EventType.TypingStopped) :
    handleEvent s e = s
    ∧ conversationOf (handleEvent s e) e.data.conversationId = none
    ∧ (handleEvent s e).uniqueEvents.contains (eventKey e) = false := by
  have hmain : handleEvent s e = s :=
    handleEvent_unknown_fresh s e h1 h2 hconv hdup hm ha hu hst hsp
  refine ⟨hmain, ?_, ?_⟩
  · rw [hmain]
    exact hconv
  · rw [hmain]
    exact hdup

/-- Witness for C6: a `"bogus"` event as the only event for `"c9"` leaves
the fresh store untouched. -/
theorem C6_unknown_first_event_no_trace_witness :
    handleEvent Store.empty
      { type := "bogus", data := { timestamp := 1, conversationId := "c9" } }
      = Store.empty := by
  have h := C6_unknown_first_event_no_trace Store.empty
    { type := "bogus", data := { timestamp := 1, conversationId := "c9" } }
    (by decide) (by decide) rfl rfl
    (by decide) (by decide) (by decide) (by decide) (by decide)
  exact h.1

/-! ## Claim C5 -/

set_option maxRecDepth 400000 in
/-- Claim C5 (counterexample): after typing ends, the pending body stays
stashed; a further accepted `TypingStopped` for a conversation with no
typing set sets the blurb to `""`, not to the stashed pending body
`"B"`, so the no-typing-set case does not restore the pending body. -/
theorem C5_counterexample :
    pendingBodyOf
      (handleEvents Store.empty
        [ { type := "typingStarted",
            data := { timestamp := 1, conversationId := "c1", user := some "u1" } },
          { type := "messageReceived",
            data := { timestamp := 2, conversationId := "c1", body := some "B" } },
          { type := "typingStopped",
            data := { timestamp := 3, conversationId := "c1", user := some "u1" } } ])
      "c1" = some "B"
    ∧ typingSetOf
      (handleEvents Store.empty
        [ { type := "typingStarted",
            data := { timestamp := 1, conversationId := "c1", user := some "u1" } },
          { type := "messageReceived",
            data := { timestamp := 2, conversationId := "c1", body := some "B" } },
          { type := "typingStopped",
            data := { timestamp := 3, conversationId := "c1", user := some "u1" } } ])
      "c1" = none
    ∧ (conversationOf
      (handleEvent
        (handleEvents Store.empty
          [ { type := "typingStarted",
              data := { timestamp := 1, conversationId := "c1", user := some "u1" } },
            { type := "messageReceived",
              data := { timestamp := 2, conversationId := "c1", body := some "B" } },
            { type := "typingStopped",
              data := { timestamp := 3, conversationId := "c1", user := some "u1" } } ])
        { type := "typingStopped",
          data := { timestamp := 4, conversationId := "c1", user := some "u1" } })
      "c1").map (fun c => c.blurb) = some ""
    ∧ ("" : String) ≠ "B" := by
  exact ⟨rfl, rfl, rfl, by decide⟩

/-- Claim C5 (amended): an accepted `TypingStopped` event removes the
truthy named user from an existing typing set; if the set becomes empty
the blurb is the stashed pending body (or `""` when none), else the
recomputed typing phrase.  When no typing set exists at all the blurb is
set to the empty string, even if a pending body has been stashed. -/
theorem C5_typing_stopped (s : Store) (e : ConversationEvent)
    (h1 : e.data.timestamp ≠ 0) (h2 : e.data.conversationId ≠ "")
    (h3 : staleFor s e = false)
    (h4 : s.uniqueEvents.contains (eventKey e) = false)
    (hty : e.type = EventType.TypingStopped) :
    (∀ l, typingSetOf s e.data.conversationId = some l →
      (typingSetOf (handleEvent s e) e.data.conversationId
          = (if (if strTruthy e.data.user then setDelete l (e.data.user.getD "") else l) = []
             then none
             else some (if strTruthy e.data.user then setDelete l (e.data.user.getD "") else l)))
      ∧ (conversationOf (handleEvent s e) e.data.conversationId).map (fun c => c.blurb)
          = some (if (if strTruthy e.data.user then setDelete l (e.data.user.getD "") else l) = []
              then (pendingBodyOf s e.data.conversationId).getD ""
              else typingPhrase
                (if strTruthy e.data.user then setDelete l (e.data.user.getD "") else l)))
    ∧ (typingSetOf s e.data.conversationId = none →
      (conversationOf (handleEvent s e) e.data.conversationId).map (fun c => c.blurb)
        = some "") := by
  constructor
  · intro l hl
    have hl2 : mapLookup (acceptedStore s e).typingUsers e.data.conversationId = some l := by
      rw [acceptedStore_typingUsers]
      exact hl
    by_cases hres : (if strTruthy e.data.user then setDelete l (e.data.user.getD "") else l) = []
    · rw [handleEvent_accepted s e h1 h2 h3 h4, dispatchEvent_typingStopped _ e _ hty,
        deleteBlurb_toEmpty _ _ _ l hl2 hres]
      constructor
      · unfold typingSetOf
        rw [if_pos hres]
        rw [show (finishKnown
            ({ acceptedStore s e with
                typingUsers := mapDelete (acceptedStore s e).typingUsers e.data.conversationId })
            e.data.conversationId e.data.timestamp _).typingUsers
          = mapDelete (acceptedStore s e).typingUsers e.data.conversationId from rfl]
        exact mapLookup_mapDelete_self _ _
      · unfold conversationOf
        rw [finishKnown_lookup_self, if_pos hres]
        unfold pendingBodyOf
        rw [show (acceptedStore s e).lastBody = s.lastBody from acceptedStore_lastBody s e]
        rfl
    · rw [handleEvent_accepted s e h1 h2 h3 h4, dispatchEvent_typingStopped _ e _ hty,
        deleteBlurb_nonEmpty _ _ _ l hl2 hres]
      constructor
      · unfold typingSetOf
        rw [if_neg hres]
        rw [show (finishKnown
            ({ acceptedStore s e with
                typingUsers :=
                  mapInsert (acceptedStore s e).typingUsers e.data.conversationId
                    (if strTruthy e.data.user then setDelete l (e.data.user.getD "")
                     else l) })
            e.data.conversationId e.data.timestamp _).typingUsers
          = mapInsert (acceptedStore s e).typingUsers e.data.conversationId
              (if strTruthy e.data.user then setDelete l (e.data.user.getD "") else l)
          from rfl]
        exact mapLookup_mapInsert_self _ _ _
      · unfold conversationOf
        rw [finishKnown_lookup_self, if_neg hres]
        rfl
  · intro hnone
    have hl2 : mapLookup (acceptedStore s e).typingUsers e.data.conversationId = none := by
      rw [acceptedStore_typingUsers]
      exact hnone
    rw [handleEvent_accepted s e h1 h2 h3 h4, dispatchEvent_typingStopped _ e _ hty,
      deleteBlurb_noSet _ _ _ hl2]
    unfold conversationOf
    rw [finishKnown_lookup_self]
    rfl

set_option maxRecDepth 400000 in
/-- Witness for C5: stopping the single typing user restores the pending
body `"B"` stashed while typing, and drops the typing set. -/
theorem C5_typing_stopped_witness :
    typingSetOf
      (handleEvent
        (handleEvents Store.empty
          [ { type := "typingStarted",
              data := { timestamp := 1, conversationId := "c1", user := some "u1" } },
            { type := "messageReceived",
              data := { timestamp := 2, conversationId := "c1", body := some "B" } } ])
        { type := "typingStopped",
          data := { timestamp := 3, conversationId := "c1", user := some "u1" } })
      "c1" = none
    ∧ (conversationOf
      (handleEvent
        (handleEvents Store.empty
          [ { type := "typingStarted",
              data := { timestamp := 1, conversationId := "c1", user := some "u1" } },
            { type := "messageReceived",
              data := { timestamp := 2, conversationId := "c1", body := some "B" } } ])
        { type := "typingStopped",
          data := { timestamp := 3, conversationId := "c1", user := some "u1" } })
      "c1").map (fun c => c.blurb) = some "B" := by
  have h := (C5_typing_stopped
    (handleEvents Store.empty
      [ { type := "typingStarted",
          data := { timestamp := 1, conversationId := "c1", user := some "u1" } },
        { type := "messageReceived",
          data := { timestamp := 2, conversationId := "c1", body := some "B" } } ])
    { type := "typingStopped",
      data := { timestamp := 3, conversationId := "c1", user := some "u1" } }
    (by decide) (by decide) rfl rfl rfl).1 ["u1"] rfl
  exact ⟨h.1.trans (by rfl), h.2.trans (by rfl)⟩

/-! ## Claim C4 -/

/-- Claim C4: while the typing set of a conversation is non-empty, an
accepted `MessageReceived` event leaves the blurb unchanged; after a
subsequent accepted `TypingStopped` event that empties the typing set,
the blurb equals the body of the message that arrived during typing. -/
theorem C4_typing_precedence (s : Store) (m p : ConversationEvent) (conv : Conversation)
    (u b : String)
    (hconv : conversationOf s m.data.conversationId = some conv)
    (hl : typingSetOf s m.data.conversationId = some [u]) (hu : u ≠ "")
    (hm1 : m.data.timestamp ≠ 0) (hm2 : m.data.conversationId ≠ "")
    (hm3 : staleFor s m = false)
    (hm4 : s.uniqueEvents.contains (eventKey m) = false)
    (hmty : m.type = EventType.MessageReceived) (hbody : m.data.body = some b)
    (hp1 : p.data.timestamp ≠ 0)
    (hpc : p.data.conversationId = m.data.conversationId)
    (hp3 : staleFor (handleEvent s m) p = false)
    (hp4 : (handleEvent s m).uniqueEvents.contains (eventKey p) = false)
    (hpty : p.type = EventType.TypingStopped) (hpu : p.data.user = some u) :
    (conversationOf (handleEvent s m) m.data.conversationId).map (fun c => c.blurb)
      = some conv.blurb
    ∧ (conversationOf (handleEvent (handleEvent s m) p) m.data.conversationId).map
        (fun c => c.blurb) = some b := by
  obtain ⟨hc1, ht1, hlb1, hu1⟩ :=
    handleEvent_message_busy_components s m conv [u] hm1 hm2 hm3 hm4 hmty hconv hl
      (by simp)
  constructor
  · rw [hc1]
    rfl
  · have hl1 : mapLookup (acceptedStore (handleEvent s m) p).typingUsers
        p.data.conversationId = some [u] := by
      rw [acceptedStore_typingUsers, ht1, hpc]
      exact hl
    have hres : (if strTruthy p.data.user then setDelete [u] (p.data.user.getD "")
        else [u]) = [] := by
      rw [hpu]
      simp [strTruthy, hu, setDelete]
    rw [← hpc]
    rw [handleEvent_accepted (handleEvent s m) p hp1 (by rw [hpc]; exact hm2) hp3 hp4,
      dispatchEvent_typingStopped _ p _ hpty,
      deleteBlurb_toEmpty _ _ _ [u] hl1 hres]
    unfold conversationOf
    rw [finishKnown_lookup_self]
    simp only [Option.map_some']
    rw [show (acceptedStore (handleEvent s m) p).lastBody = (handleEvent s m).lastBody
      from acceptedStore_lastBody (handleEvent s m) p]
    rw [hlb1, hpc, mapLookup_mapInsert_self, hbody]
    rfl

set_option maxRecDepth 400000 in
/-- Witness for C4: spec scenario 3 — typing starts, a message `"hi"`
arrives (blurb stays the typing phrase), typing stops, blurb becomes
`"hi"`. -/
theorem C4_typing_precedence_witness :
    (conversationOf
      (handleEvent
        (handleEvent Store.empty
          { type := "typingStarted",
            data := { timestamp := 1, conversationId := "c1", user := some "u1" } })
        { type := "messageReceived",
          data := { timestamp := 2, conversationId := "c1", body := some "hi" } })
      "c1").map (fun c => c.blurb) = some "u1 is replying..."
    ∧ (conversationOf
      (handleEvent
        (handleEvent
          (handleEvent Store.empty
            { type := "typingStarted",
              data := { timestamp := 1, conversationId := "c1", user := some "u1" } })
          { type := "messageReceived",
            data := { timestamp := 2, conversationId := "c1", body := some "hi" } })
        { type := "typingStopped",
          data := { timestamp := 3, conversationId := "c1", user := some "u1" } })
      "c1").map (fun c => c.blurb) = some "hi" := by
  have h := C4_typing_precedence
    (handleEvent Store.empty
      { type := "typingStarted",
        data := { timestamp := 1, conversationId := "c1", user := some "u1" } })
    { type := "messageReceived",
      data := { timestamp := 2, conversationId := "c1", body := some "hi" } }
    { type := "typingStopped",
      data := { timestamp := 3, conversationId := "c1", user := some "u1" } }
    { id := "c1", assignedUser := none, subject := "", blurb := "u1 is replying...",
      messageCount := 0, lastUpdatedTimestamp := 1 }
    "u1" "hi"
    rfl rfl (by decide) (by decide) (by decide) rfl rfl rfl rfl
    (by decide) rfl rfl rfl rfl rfl
  exact ⟨h.1, h.2⟩

/-! ## Claim C7 -/

/-- Claim C7: `getConversations` returns exactly the registry values
whose `assignedUser` is not a member of the configured block-list (a
permutation of that filtered list), sorted by `lastUpdatedTimestamp` in
descending order; being a pure function of the store, it mutates no
state. -/
theorem C7_read_view (s : Store) :
    List.Perm (getConversations s)
      ((s.conversations.map (fun p => p.2)).filter
        (fun c => match c.assignedUser with
          | some uu => !blackListedUsers.contains uu
          | none => true))
    ∧ (getConversations s).Pairwise
        (fun a b => b.lastUpdatedTimestamp ≤ a.lastUpdatedTimestamp)
    ∧ ∀ v ∈ getConversations s, ∀ uu, v.assignedUser = some uu →
        uu ∉ blackListedUsers := by
  have hfilters : (s.conversations.map (fun p => p.2)).filter
        (fun c => ¬ blackListedUsers.contains (c.assignedUser.getD ""))
      = (s.conversations.map (fun p => p.2)).filter
        (fun c => match c.assignedUser with
          | some uu => !blackListedUsers.contains uu
          | none => true) := by
    apply List.filter_congr
    intro c _
    cases hca : c.assignedUser with
    | none => rfl
    | some uu =>
      cases hX : blackListedUsers.contains uu <;> simp [hX]
  have hperm : List.Perm (getConversations s)
      ((s.conversations.map (fun p => p.2)).filter
        (fun c => match c.assignedUser with
          | some uu => !blackListedUsers.contains uu
          | none => true)) := by
    unfold getConversations
    exact hfilters ▸ List.mergeSort_perm _ _
  refine ⟨hperm, ?_, ?_⟩
  · unfold getConversations
    have htrans : ∀ a b c : Conversation,
        (fun a b : Conversation =>
          decide (b.lastUpdatedTimestamp ≤ a.lastUpdatedTimestamp)) a b
        → (fun a b : Conversation =>
          decide (b.lastUpdatedTimestamp ≤ a.lastUpdatedTimestamp)) b c
        → (fun a b : Conversation =>
          decide (b.lastUpdatedTimestamp ≤ a.lastUpdatedTimestamp)) a c := by
      intro a b c hab hbc
      simp only [decide_eq_true_eq] at hab hbc ⊢
      omega
    have htotal : ∀ a b : Conversation,
        ((fun a b : Conversation =>
          decide (b.lastUpdatedTimestamp ≤ a.lastUpdatedTimestamp)) a b
        || (fun a b : Conversation =>
          decide (b.lastUpdatedTimestamp ≤ a.lastUpdatedTimestamp)) b a) := by
      intro a b
      simp only [Bool.or_eq_true, decide_eq_true_eq]
      omega
    exact (List.sorted_mergeSort htrans htotal _).imp (by
      intro a b h
      simpa using h)
  · intro v hv uu hvu
    have hmem := hperm.mem_iff.1 hv
    have hpred := List.of_mem_filter hmem
    rw [hvu] at hpred
    simp only [Bool.not_eq_true'] at hpred
    simpa using hpred

set_option maxRecDepth 400000 in
/-- Witness for C7: on a concrete store holding one unassigned
conversation and one assigned to the block-listed `"John_Doe"`, the read
view is a permutation of the one-element filtered list, hence has length
one. -/
theorem C7_read_view_witness :
    (getConversations
      (handleEvents Store.empty
        [ { type := "messageReceived",
            data := { timestamp := 1, conversationId := "c1", body := some "x" } },
          { type := "messageReceived",
            data := { timestamp := 2, conversationId := "c2", body := some "y" } },
          { type := "assigned",
            data := { timestamp := 3, conversationId := "c2",
                      user := some "John_Doe" } } ])).length = 1 := by
  have h := C7_read_view
    (handleEvents Store.empty
      [ { type := "messageReceived",
          data := { timestamp := 1, conversationId := "c1", body := some "x" } },
        { type := "messageReceived",
          data := { timestamp := 2, conversationId := "c2", body := some "y" } },
        { type := "assigned",
          data := { timestamp := 3, conversationId := "c2",
                    user := some "John_Doe" } } ])
  exact h.1.length_eq.trans (by rfl)

/-! ## Claim C2 -/

/-- Claim C2: handling the same event twice in immediate succession
yields the state obtained by handling it once — for any store, any event
kind (known or unknown) and any payload.  Known kinds are blocked the
second time by the recorded dedup key; unknown kinds roll the store back
so the second application repeats a no-op. -/
theorem C2_idempotent (s : Store) (e : ConversationEvent) :
    handleEvent (handleEvent s e) e = handleEvent s e := by
  by_cases h1 : e.data.timestamp = 0
  · rw [handleEvent_ts_zero s e h1, handleEvent_ts_zero s e h1]
  · by_cases h2 : e.data.conversationId = ""
    · rw [handleEvent_cid_empty s e h2, handleEvent_cid_empty s e h2]
    · by_cases h3 : staleFor s e = true
      · rw [handleEvent_stale s e h3, handleEvent_stale s e h3]
      · have h3' : staleFor s e = false := by
          revert h3
          cases staleFor s e <;> simp
        by_cases h4 : s.uniqueEvents.contains (eventKey e) = true
        · rw [handleEvent_dup s e h4, handleEvent_dup s e h4]
        · have h4' : s.uniqueEvents.contains (eventKey e) = false := by
            revert h4
            cases s.uniqueEvents.contains (eventKey e) <;> simp
          by_cases hkn : e.type = EventType.MessageReceived
              ∨ e.type = EventType.Assigned ∨ e.type = EventType.Unassigned
              ∨ e.type = EventType.TypingStarted ∨ e.type = EventType.TypingStopped
          · rw [handleEvent_accepted s e h1 h2 h3' h4']
            apply handleEvent_dup
            rw [dispatchEvent_uniqueEvents_known _ e _ hkn, acceptedStore_uniqueEvents]
            exact contains_setAdd_self _ _
          · push_neg at hkn
            obtain ⟨hm, ha, hu, hst, hsp⟩ := hkn
            rcases hconv0 : mapLookup s.conversations e.data.conversationId with _ | conv0
            · have hse := handleEvent_unknown_fresh s e h1 h2 hconv0 h4' hm ha hu hst hsp
              rw [hse, hse]
            · have hse :=
                handleEvent_unknown_existing s e conv0 h1 h2 h3' hconv0 h4' hm ha hu hst hsp
              by_cases hemp : (conv0.assignedUser == none && conv0.subject == ""
                  && conv0.blurb == "" && conv0.messageCount == 0
                  && conv0.lastUpdatedTimestamp == 0) = true
              · have hse2 : handleEvent s e
                    = { s with
                        conversations := mapDelete s.conversations e.data.conversationId } := by
                  rw [hse]
                  unfold isConversationEmptyThenRemove
                  rw [hconv0]
                  simp only [hemp]
                  simp
                rw [hse2]
                exact handleEvent_unknown_fresh _ e h1 h2
                  (mapLookup_mapDelete_self _ _) h4' hm ha hu hst hsp
              · have hemp' : (conv0.assignedUser == none && conv0.subject == ""
                    && conv0.blurb == "" && conv0.messageCount == 0
                    && conv0.lastUpdatedTimestamp == 0) = false := by
                  revert hemp
                  cases conv0.assignedUser == none && conv0.subject == ""
                      && conv0.blurb == "" && conv0.messageCount == 0
                      && conv0.lastUpdatedTimestamp == 0 <;> simp
                have hse2 : handleEvent s e = s := by
                  rw [hse]
                  unfold isConversationEmptyThenRemove
                  rw [hconv0]
                  simp only [hemp']
                  rfl
                rw [hse2, hse2]

/-! ## Claim C3 -/

/-- Claim C3: for a reachable store and an existing conversation, one
more `handleEvent` call never decreases that conversation's watermark
(`lastUpdatedTimestamp`), and an event addressed to it whose timestamp is
strictly below the watermark changes nothing at all. -/
theorem C3_ordering_monotonic (s : Store) (e : ConversationEvent) (c : String)
    (conv : Conversation) (hs : Reachable s)
    (h : conversationOf s c = some conv) :
    (∀ conv', conversationOf (handleEvent s e) c = some conv' →
        conv.lastUpdatedTimestamp ≤ conv'.lastUpdatedTimestamp)
    ∧ (e.data.conversationId = c →
        e.data.timestamp < conv.lastUpdatedTimestamp → handleEvent s e = s) := by
  have hid := reachable_idConsistent s hs
  unfold conversationOf at h
  constructor
  · intro conv' h'
    unfold conversationOf at h'
    by_cases h1 : e.data.timestamp = 0
    · rw [handleEvent_ts_zero s e h1] at h'
      cases Option.some.inj (h.symm.trans h')
      exact le_refl _
    by_cases h2 : e.data.conversationId = ""
    · rw [handleEvent_cid_empty s e h2] at h'
      cases Option.some.inj (h.symm.trans h')
      exact le_refl _
    by_cases h3 : staleFor s e = true
    · rw [handleEvent_stale s e h3] at h'
      cases Option.some.inj (h.symm.trans h')
      exact le_refl _
    have h3' : staleFor s e = false := by
      revert h3; cases staleFor s e <;> simp
    by_cases h4 : s.uniqueEvents.contains (eventKey e) = true
    · rw [handleEvent_dup s e h4] at h'
      cases Option.some.inj (h.symm.trans h')
      exact le_refl _
    have h4' : s.uniqueEvents.contains (eventKey e) = false := by
      revert h4; cases s.uniqueEvents.contains (eventKey e) <;> simp
    by_cases hkn : e.type = EventType.MessageReceived
        ∨ e.type = EventType.Assigned ∨ e.type = EventType.Unassigned
        ∨ e.type = EventType.TypingStarted ∨ e.type = EventType.TypingStopped
    · rw [handleEvent_accepted s e h1 h2 h3' h4'] at h'
      by_cases hc : c = e.data.conversationId
      · subst hc
        have hself := dispatch_known_lookup_self (acceptedStore s e) e
          ((mapLookup (acceptedStore s e).conversations e.data.conversationId).getD
            (defaultConversation e.data.conversationId)) hkn
        rw [h'] at hself
        simp only [Option.map_some'] at hself
        have hts := congrArg Prod.snd (Option.some.inj hself)
        have hle : conv.lastUpdatedTimestamp ≤ e.data.timestamp :=
          staleFor_false_le s e conv h (hid e.data.conversationId conv h) h3'
        rw [show conv'.lastUpdatedTimestamp = e.data.timestamp from hts]
        exact hle
      · rw [dispatch_known_lookup_ne _ e _ c hkn hc,
          acceptedStore_lookup_ne s e c hc] at h'
        cases Option.some.inj (h.symm.trans h')
        exact le_refl _
    · push_neg at hkn
      obtain ⟨hm, ha, hu, hst, hsp⟩ := hkn
      rcases hconv0 : mapLookup s.conversations e.data.conversationId with _ | conv0
      · rw [handleEvent_unknown_fresh s e h1 h2 hconv0 h4' hm ha hu hst hsp] at h'
        cases Option.some.inj (h.symm.trans h')
        exact le_refl _
      · rw [handleEvent_unknown_existing s e conv0 h1 h2 h3' hconv0 h4'
          hm ha hu hst hsp] at h'
        by_cases hemp : (conv0.assignedUser == none && conv0.subject == ""
            && conv0.blurb == "" && conv0.messageCount == 0
            && conv0.lastUpdatedTimestamp == 0) = true
        · rw [prune_default s e.data.conversationId conv0 hconv0 hemp] at h'
          have h'' : mapLookup (mapDelete s.conversations e.data.conversationId) c
              = some conv' := h'
          by_cases hc : c = e.data.conversationId
          · rw [hc, mapLookup_mapDelete_self] at h''
            exact absurd h'' (by simp)
          · rw [mapLookup_mapDelete_ne _ _ _ hc] at h''
            cases Option.some.inj (h.symm.trans h'')
            exact le_refl _
        · have hemp' : (conv0.assignedUser == none && conv0.subject == ""
              && conv0.blurb == "" && conv0.messageCount == 0
              && conv0.lastUpdatedTimestamp == 0) = false := by
            revert hemp
            cases conv0.assignedUser == none && conv0.subject == ""
                && conv0.blurb == "" && conv0.messageCount == 0
                && conv0.lastUpdatedTimestamp == 0 <;> simp
          rw [prune_nondefault s e.data.conversationId conv0 hconv0 hemp'] at h'
          cases Option.some.inj (h.symm.trans h')
          exact le_refl _
  · intro hcid hlt
    by_cases h1 : e.data.timestamp = 0
    · exact handleEvent_ts_zero s e h1
    by_cases h2 : e.data.conversationId = ""
    · exact handleEvent_cid_empty s e h2
    apply handleEvent_stale
    unfold staleFor
    rw [hcid, h]
    have hi := hid c conv h
    simp [hi, hlt]

/-- Witness for C3: spec scenario 2 — after a message at timestamp 20, a
message at timestamp 10 for the same conversation is discarded without
changing the store. -/
theorem C3_ordering_monotonic_witness :
    handleEvent
      (handleEvent Store.empty
        { type := "messageReceived",
          data := { timestamp := 20, conversationId := "c1", body := some "B" } })
      { type := "messageReceived",
        data := { timestamp := 10, conversationId := "c1", body := some "A" } }
      = handleEvent Store.empty
          { type := "messageReceived",
            data := { timestamp := 20, conversationId := "c1", body := some "B" } } := by
  have h := C3_ordering_monotonic
    (handleEvent Store.empty
      { type := "messageReceived",
        data := { timestamp := 20, conversationId := "c1", body := some "B" } })
    { type := "messageReceived",
      data := { timestamp := 10, conversationId := "c1", body := some "A" } }
    "c1"
    { id := "c1", assignedUser := none, subject := "", blurb := "B",
      messageCount := 1, lastUpdatedTimestamp := 20 }
    (Reachable.step _ Reachable.empty)
    rfl
  exact h.2 rfl (by decide)

/-! ## Claim C1 -/

set_option maxRecDepth 1000000 in
/-- Claim C1 (counterexample): a 300-character message body stashed while
a user was typing is restored as the blurb, in full, when typing stops —
a reachable state whose blurb has more than 256 characters and is not the
current typing-indicator phrase. -/
theorem C1_counterexample :
    (conversationOf
      (handleEvent
        (handleEvent
          (handleEvent Store.empty
            { type := "typingStarted",
              data := { timestamp := 1, conversationId := "c1", user := some "u1" } })
          { type := "messageReceived",
            data := { timestamp := 2, conversationId := "c1", body := some longBody } })
        { type := "typingStopped",
          data := { timestamp := 3, conversationId := "c1", user := some "u1" } })
      "c1").map (fun v => v.blurb) = some longBody
    ∧ 256 < longBody.length
    ∧ getBlurbForTypingUsers
        (handleEvent
          (handleEvent
            (handleEvent Store.empty
              { type := "typingStarted",
                data := { timestamp := 1, conversationId := "c1", user := some "u1" } })
            { type := "messageReceived",
              data := { timestamp := 2, conversationId := "c1",
                        body := some longBody } })
          { type := "typingStopped",
            data := { timestamp := 3, conversationId := "c1", user := some "u1" } })
        "c1" ≠ longBody := by
  refine ⟨rfl, ?_, ?_⟩
  · show 256 < (List.replicate 300 'a').length
    rw [List.length_replicate]
    omega
  · intro hcon
    have hdata := congrArg (fun t => t.data.length) hcon
    revert hdata
    decide

/-- Claim C1 (amended): in every reachable state, every stored blurb is
at most 256 characters, or is the conversation's current typing-indicator
phrase, or — the typing set being empty — is the stashed pending body
restored when typing last ended, which may exceed 256 characters. -/
theorem C1_blurb_bound (s : Store) (hs : Reachable s) (c : String)
    (conv : Conversation) (h : conversationOf s c = some conv) :
    conv.blurb.length ≤ 256
    ∨ conv.blurb = getBlurbForTypingUsers s c
    ∨ (typingEmptyFor s c ∧ conv.blurb = (pendingBodyOf s c).getD "") :=
  reachable_blurbInvariant s hs c conv h

set_option maxRecDepth 1000000 in
/-- Witness for C1: the bound evaluated at the reachable state of the
counterexample run — the restored long blurb falls under the
pending-body disjunct. -/
theorem C1_blurb_bound_witness :
    (Conversation.mk "c1" none "" longBody 1 3).blurb.length ≤ 256
    ∨ (Conversation.mk "c1" none "" longBody 1 3).blurb
      = getBlurbForTypingUsers
          (handleEvent
            (handleEvent
              (handleEvent Store.empty
                { type := "typingStarted",
                  data := { timestamp := 1, conversationId := "c1",
                            user := some "u1" } })
              { type := "messageReceived",
                data := { timestamp := 2, conversationId := "c1",
                          body := some longBody } })
            { type := "typingStopped",
              data := { timestamp := 3, conversationId := "c1", user := some "u1" } })
          "c1"
    ∨ (typingEmptyFor
          (handleEvent
            (handleEvent
              (handleEvent Store.empty
                { type := "typingStarted",
                  data := { timestamp := 1, conversationId := "c1",
                            user := some "u1" } })
              { type := "messageReceived",
                data := { timestamp := 2, conversationId := "c1",
                          body := some longBody } })
            { type := "typingStopped",
              data := { timestamp := 3, conversationId := "c1", user := some "u1" } })
          "c1"
        ∧ (Conversation.mk "c1" none "" longBody 1 3).blurb
          = (pendingBodyOf
              (handleEvent
                (handleEvent
                  (handleEvent Store.empty
                    { type := "typingStarted",
                      data := { timestamp := 1, conversationId := "c1",
                                user := some "u1" } })
                  { type := "messageReceived",
                    data := { timestamp := 2, conversationId := "c1",
                              body := some longBody } })
                { type := "typingStopped",
                  data := { timestamp := 3, conversationId := "c1",
                            user := some "u1" } })
              "c1").getD "") :=
  C1_blurb_bound _
    (Reachable.step _ (Reachable.step _ (Reachable.step _ Reachable.empty)))
    "c1"
    (Conversation.mk "c1" none "" longBody 1 3)
    rfl

end ChatMessages
